import Mathlib

/-!
Verification of the Black-Mountain-Ecologies data pipeline.

The repository is a set of Python scripts that build and merge nested
JSON artifacts.  We embed the dynamically-typed Python values in the
inductive type `PyVal` (dictionaries are association lists over `PyKey`,
which is an integer or a string, matching the dictionary keys that occur
in the scripts), and we embed each script operation that the claims
depend on as a function over `PyVal`.  Operations that can raise in
Python (`d[k]`, `d.get(...)` on a non-dict, iteration over a non-iterable,
ordering comparisons on non-numbers) are embedded in `Except String`,
so an embedded function returns `Except.ok` exactly when the Python code
runs without an exception.
-/

/-- A Python dictionary key as used by the scripts: an int or a str. -/
inductive PyKey where
  | int (n : Int)
  | str (s : String)
deriving DecidableEq, Repr

/-- A Python/JSON value: `None`, bool, int, float, str, list or dict.
Floats are represented by the rational value of the literal. -/
inductive PyVal where
  | none
  | bool (b : Bool)
  | int (n : Int)
  | float (q : ℚ)
  | str (s : String)
  | list (xs : List PyVal)
  | dict (kvs : List (PyKey × PyVal))
deriving Repr

namespace PyVal

/-- Python truthiness: `bool(v)`. -/
def truthy : PyVal → Bool
  | .none => false
  | .bool b => b
  | .int n => n != 0
  | .float q => q != 0
  | .str s => s != ""
  | .list xs => !xs.isEmpty
  | .dict kvs => !kvs.isEmpty

/-- Numeric view shared by `int`, `float` and `bool` (Python treats
`True` as `1` and `False` as `0` in arithmetic and comparisons). -/
def toQ? : PyVal → Option ℚ
  | .int n => some (n : ℚ)
  | .float q => some q
  | .bool b => some (if b then 1 else 0)
  | _ => Option.none

/-- Python `==` restricted to hashable scalar values (the only values
the scripts ever use as set members or compare with `in` on lists):
numbers compare by value across `int`/`float`/`bool`, strings compare
as strings, `None` equals only `None`, and everything else is unequal. -/
def scalarEq (a b : PyVal) : Bool :=
  match a.toQ?, b.toQ? with
  | some x, some y => x == y
  | _, _ =>
    match a, b with
    | .str s, .str t => s == t
    | .none, .none => true
    | _, _ => false

/-- Whether a value is hashable in Python (lists and dicts are not). -/
def hashable : PyVal → Bool
  | .list _ => false
  | .dict _ => false
  | _ => true

end PyVal

/-- Lookup in an association list by dictionary key (Python dicts have
unique keys, so first match is the match). -/
def lookupKvs (k : PyKey) : List (PyKey × PyVal) → Option PyVal
  | [] => Option.none
  | (k', v) :: rest => if k' = k then some v else lookupKvs k rest

/-- `d[k] = v` on a dict: update the existing entry in place, or append
a new entry at the end, exactly like a Python dict assignment. -/
def setKvs (k : PyKey) (v : PyVal) : List (PyKey × PyVal) → List (PyKey × PyVal)
  | [] => [(k, v)]
  | (k', v') :: rest => if k' = k then (k', v) :: rest else (k', v') :: setKvs k v rest

/-- Convert a value used as a dictionary subscript into the `PyKey` it
can match, following Python hashing/equality: `True` hashes like `1`,
an integral float like its integer, a non-integral float or `None`
matches no int/str key, and unhashable values raise `TypeError`. -/
def pyIndexKey : PyVal → Except String (Option PyKey)
  | .int n => .ok (some (.int n))
  | .str s => .ok (some (.str s))
  | .bool b => .ok (some (.int (if b then 1 else 0)))
  | .float q => .ok (if q.den = 1 then some (.int q.num) else Option.none)
  | .none => .ok Option.none
  | .list _ => .error "TypeError: unhashable type"
  | .dict _ => .error "TypeError: unhashable type"

namespace PyVal

/-- Python subscript `v[idx]`: dict key lookup (KeyError when absent),
list indexing by integer (with negative wrap-around), single-character
string indexing; `TypeError` otherwise. -/
def getItem (v idx : PyVal) : Except String PyVal :=
  match v with
  | .dict kvs => do
      match (← pyIndexKey idx) with
      | some k =>
          match lookupKvs k kvs with
          | some w => .ok w
          | Option.none => .error "KeyError"
      | Option.none => .error "KeyError"
  | .list xs =>
      match idx with
      | .int n =>
          let i : Int := if n < 0 then n + xs.length else n
          if h : 0 ≤ i ∧ i.toNat < xs.length then .ok (xs.get ⟨i.toNat, h.2⟩)
          else .error "IndexError"
      | _ => .error "TypeError: list indices must be integers"
  | .str s =>
      match idx with
      | .int n =>
          let i : Int := if n < 0 then n + s.length else n
          if h : 0 ≤ i ∧ i.toNat < s.toList.length then
            .ok (.str (String.singleton (s.toList.get ⟨i.toNat, h.2⟩)))
          else .error "IndexError"
      | _ => .error "TypeError: string indices must be integers"
  | _ => .error "TypeError: not subscriptable"

/-- The method call `v.get(key, default)`, only available on dicts
(`AttributeError` otherwise).  All call sites in the scripts use a
string literal key. -/
def getA (v : PyVal) (key : String) (default : PyVal) : Except String PyVal :=
  match v with
  | .dict kvs =>
      match lookupKvs (.str key) kvs with
      | some w => .ok w
      | Option.none => .ok default
  | _ => .error "AttributeError: no method get"

/-- `v[key] = w` where `v` must be a dict (the scripts only assign into
dict literals they created). -/
def setItem (v : PyVal) (key : PyKey) (w : PyVal) : Except String PyVal :=
  match v with
  | .dict kvs => .ok (.dict (setKvs key w kvs))
  | _ => .error "TypeError: does not support item assignment"

/-- A dictionary key viewed as a value (what `for x in d` yields). -/
def keyVal : PyKey → PyVal
  | .int n => .int n
  | .str s => .str s

/-- Python iteration `for x in v`: list elements, dict keys, or the
characters of a string; `TypeError` otherwise. -/
def pyIter : PyVal → Except String (List PyVal)
  | .list xs => .ok xs
  | .dict kvs => .ok (kvs.map (fun p => keyVal p.1))
  | .str s => .ok (s.toList.map (fun c => .str (String.singleton c)))
  | _ => .error "TypeError: not iterable"

/-- Slice `v[:n]` for lists and strings. -/
def sliceTo (v : PyVal) (n : Nat) : Except String PyVal :=
  match v with
  | .list xs => .ok (.list (xs.take n))
  | .str s => .ok (.str (String.mk (s.toList.take n)))
  | _ => .error "TypeError: not sliceable"

end PyVal

/-- Is `t` a contiguous substring of `s`? -/
def substrCheck (t s : List Char) : Bool :=
  match s with
  | [] => t.isEmpty
  | _ :: rest => t.isPrefixOf s || substrCheck t rest

/-- Python `x in v`: dict key membership, list element membership
(the scripts only test scalar elements), or substring test on strings. -/
def pyContains (v x : PyVal) : Except String Bool :=
  match v with
  | .dict kvs => do
      match (← pyIndexKey x) with
      | some k => .ok (kvs.any (fun p => p.1 = k))
      | Option.none => .ok false
  | .list xs => .ok (xs.any (fun e => PyVal.scalarEq x e))
  | .str s =>
      match x with
      | .str t => .ok (substrCheck t.toList s.toList)
      | _ => .error "TypeError: in <string> requires string"
  | _ => .error "TypeError: argument not iterable"

/-- Python chained comparison operand `a <= b` for the numeric values
the scripts compare; `TypeError` on anything non-numeric. -/
def pyLE (a b : PyVal) : Except String Bool :=
  match a.toQ?, b.toQ? with
  | some x, some y => .ok (decide (x ≤ y))
  | _, _ => .error "TypeError: unorderable types"

mutual

/-- `json.loads(json.dumps(v))`: the disk round-trip every artifact
goes through.  JSON objects have string keys, so `json.dumps` writes an
int dict key as its decimal string and `json.loads` reads it back as a
string; every other part of the value is preserved. -/
def jsonRoundTrip : PyVal → PyVal
  | .dict kvs => .dict (jsonRoundTripKvs kvs)
  | .list xs => .list (jsonRoundTripList xs)
  | v => v

def jsonRoundTripList : List PyVal → List PyVal
  | [] => []
  | x :: xs => jsonRoundTrip x :: jsonRoundTripList xs

def jsonRoundTripKvs : List (PyKey × PyVal) → List (PyKey × PyVal)
  | [] => []
  | (k, v) :: kvs =>
      (match k with
       | .int n => PyKey.str (toString n)
       | .str s => PyKey.str s, jsonRoundTrip v) :: jsonRoundTripKvs kvs

end

/-- The keys of a dict value (empty for non-dicts). -/
def PyVal.topKeys : PyVal → List PyKey
  | .dict kvs => kvs.map Prod.fst
  | _ => []

/-- Configured year range from `config.py`. -/
def START_YEAR : Int := 1933

/-- Configured year range from `config.py`. -/
def END_YEAR : Int := 1957

/-- The list `range(START_YEAR, END_YEAR + 1)` as integers. -/
def yearRange : List Int := (List.range 25).map (fun i => START_YEAR + (i : Int))

/-! ## `build_chestnut_timeline.py` -/

/-- The per-year status record built by the loop in
`build_chestnut_timeline` (breakpoint buckets on the year, then the
`root_sprouts` and `salvage_logging` flags appended). -/
def chestnutStatusFor (year : Int) : PyVal :=
  let (sts, pct, notes) :=
    if year ≤ 1933 then
      ("dying", (40 : Int), "Active blight spread; many trees infected but still standing")
    else if year ≤ 1938 then
      ("mass_mortality", 15, "Peak mortality period; dead and dying trees throughout forest")
    else if year ≤ 1945 then
      ("functionally_extinct", 2, "Mature trees essentially gone; some root sprouts surviving")
    else
      ("extinct_as_canopy", 0, "Only root sprouts remain; forest composition shift complete")
  .dict [
    (.str "year", .int year),
    (.str "blight_present", .bool true),
    (.str "mature_tree_status", .str sts),
    (.str "estimated_survival_percent", .int pct),
    (.str "notes", .str notes),
    (.str "root_sprouts", .str (if year ≥ 1935 then "present" else "emerging")),
    (.str "salvage_logging", .bool (decide (year ≥ 1935) && decide (year ≤ 1945)))]

/-- `timeline["yearly_status"]` after the builder loop: one entry per
year of the configured range, keyed by the int year. -/
def chestnutYearlyStatus : PyVal :=
  .dict (yearRange.map (fun y => (PyKey.int y, chestnutStatusFor y)))

/-- One entry of the chestnut `major_events` table. -/
def chestnutEvent (year : Int) (location event description : String) : PyVal :=
  .dict [
    (.str "year", .int year),
    (.str "location", .str location),
    (.str "event", .str event),
    (.str "description", .str description)]

/-- `timeline["major_events"]` from `build_chestnut_timeline`. -/
def chestnutMajorEvents : PyVal :=
  .list [
    chestnutEvent 1904 "Bronx Zoo, New York City" "Chestnut blight first discovered"
      "Forester Hermann Merkel identifies unusual cankers killing chestnut trees at the Bronx Zoo",
    chestnutEvent 1905 "New York" "Pathogen identified"
      "Mycologist William Murrill identifies the fungus causing the blight",
    chestnutEvent 1908 "Pennsylvania" "Rapid spread documented"
      "Blight spreading rapidly through Pennsylvania forests",
    chestnutEvent 1911 "Pennsylvania" "Pennsylvania Blight Commission formed"
      "First organized scientific effort to combat the blight",
    chestnutEvent 1912 "Virginia" "Blight reaches Virginia"
      "Southern spread accelerating down the Appalachian chain",
    chestnutEvent 1920 "Virginia/Tennessee border" "Blight approaching Southern Appalachians"
      "Scientists tracking southward progression of blight front",
    chestnutEvent 1923 "North Carolina" "First blight cases in NC mountains"
      "Chestnut blight confirmed in North Carolina mountain counties",
    chestnutEvent 1926 "Western NC" "Blight widespread in region"
      "Blight established throughout the Black Mountain region",
    chestnutEvent 1930 "Southern Appalachians" "Mass mortality begins"
      "Large-scale death of chestnut trees accelerating",
    chestnutEvent 1933 "Black Mountain region" "BMC opens amid dying forest"
      "Black Mountain College opens as chestnut blight transforms surrounding forests",
    chestnutEvent 1938 "Southern Appalachians" "Peak mortality"
      "Majority of mature American chestnuts dead or dying",
    chestnutEvent 1940 "Southern Appalachians" "Near-complete extinction of mature trees"
      "American chestnut functionally extinct as a canopy tree in Southern Appalachians",
    chestnutEvent 1950 "Eastern US" "Blight reaches Gulf Coast"
      "Entire native range affected; estimated 3-4 billion trees dead"]

/-- The full artifact value returned by `build_chestnut_timeline()` and
written to `chestnut_blight_1933_1957.json`. -/
def chestnutTimeline : PyVal :=
  .dict [
    (.str "metadata", .dict [
      (.str "species", .str "Castanea dentata"),
      (.str "common_name", .str "American Chestnut"),
      (.str "pathogen", .str "Cryphonectria parasitica (formerly Endothia parasitica)"),
      (.str "common_name_pathogen", .str "Chestnut blight fungus"),
      (.str "origin", .str "Introduced from Asian chestnut trees imported to New York"),
      (.str "description", .str "The American chestnut was once the dominant tree of Eastern forests, comprising up to 25% of hardwood trees. The blight killed an estimated 3-4 billion trees."),
      (.str "sources", .list [
        .str "US Forest Service Historical Records",
        .str "American Chestnut Foundation",
        .str "Freinkel, Susan. \x27American Chestnut: The Life, Death, and Rebirth of a Perfect Tree\x27 (2007)",
        .str "Anagnostakis, Sandra L. \x27Chestnut Blight: The Classical Problem of an Introduced Pathogen\x27 (1987)",
        .str "NC Forest Service Archives"])]),
    (.str "pre_blight_ecology", .dict [
      (.str "forest_composition", .str "American chestnut comprised 25-30% of Southern Appalachian hardwood forests"),
      (.str "economic_importance", .list [
        .str "Primary source of tannin for leather industry",
        .str "Rot-resistant lumber for construction, fencing, railroad ties",
        .str "Nuts as food source for humans, livestock, and wildlife",
        .str "Reliable annual nut crop (unlike oaks which mast irregularly)"]),
      (.str "ecological_role", .list [
        .str "Major food source for deer, bear, turkey, squirrels, and other wildlife",
        .str "Consistent annual mast crop provided reliable food",
        .str "Dominant canopy tree in mixed hardwood forests",
        .str "Supported unique insect and fungal communities"])]),
    (.str "major_events", chestnutMajorEvents),
    (.str "yearly_status", chestnutYearlyStatus),
    (.str "ecological_consequences", .dict [
      (.str "forest_composition_change", .list [
        .str "Oaks (Quercus spp.) became dominant canopy trees",
        .str "Red maple (Acer rubrum) increased significantly",
        .str "Hickories (Carya spp.) expanded",
        .str "Tulip poplar (Liriodendron tulipifera) increased"]),
      (.str "wildlife_impacts", .list [
        .str "Loss of reliable annual mast crop",
        .str "Black bear and wild turkey populations declined",
        .str "Shift to oak mast with irregular production years",
        .str "Some insect species dependent on chestnut went extinct"]),
      (.str "economic_impacts", .list [
        .str "Loss of tannin industry",
        .str "Loss of valuable lumber source",
        .str "Loss of subsistence nut crop for rural communities",
        .str "CCC programs employed workers to salvage dead trees"])])]

/-! ## `build_pesticide_timeline.py` -/

/-- The per-year record built by the loop in `build_pesticide_timeline`:
the initial literal, one of the four breakpoint branches (which sets the
notes, the `common_pesticides` list and the regional-usage level, with
the fire-ant suffix for 1954 on), and the Appalachian-specific keys and
notes suffix added for 1945 on. -/
def pesticideYearFor (year : Int) : PyVal :=
  let (notes, pests, usage) :=
    if year < 1939 then
      ("Pre-synthetic pesticide era; arsenic-based compounds and natural pesticides used",
       ["lead arsenate", "calcium arsenate", "pyrethrum", "rotenone"], "low")
    else if year < 1945 then
      ("DDT in military use only; traditional pesticides continue",
       ["lead arsenate", "calcium arsenate", "pyrethrum", "rotenone"], "low")
    else if year < 1950 then
      ("DDT becoming available; adoption growing",
       ["DDT", "lead arsenate", "BHC (lindane)", "chlordane"], "moderate")
    else
      ("Peak synthetic pesticide era; widespread DDT use"
         ++ (if year ≥ 1954 then "; Fire ant program affects region" else ""),
       ["DDT", "BHC (lindane)", "chlordane", "aldrin", "dieldrin", "toxaphene"], "high")
  let notes := if year ≥ 1945 then
      notes ++ "; Tobacco and apple orchards primary agricultural users in region"
    else notes
  .dict ([
    (.str "year", .int year),
    (.str "ddt_available", .bool (decide (year ≥ 1945))),
    (.str "ddt_agricultural_use", .bool (decide (year ≥ 1946))),
    (.str "estimated_regional_usage", .str usage),
    (.str "notes", .str notes),
    (.str "common_pesticides", .list (pests.map PyVal.str))]
    ++ (if year ≥ 1945 then
         [(PyKey.str "forest_service_spraying", PyVal.bool true),
          (PyKey.str "agricultural_application", PyVal.bool true)]
       else []))

/-- `timeline["yearly_data"]` after the builder loop, keyed by the int
year. -/
def pesticideYearlyData : PyVal :=
  .dict (yearRange.map (fun y => (PyKey.int y, pesticideYearFor y)))

/-- One entry of the pesticide `major_events` table. -/
def pesticideEvent (year : Int) (event description impact : String) : PyVal :=
  .dict [
    (.str "year", .int year),
    (.str "event", .str event),
    (.str "description", .str description),
    (.str "impact", .str impact)]

/-- `timeline["major_events"]` from `build_pesticide_timeline`. -/
def pesticideMajorEvents : PyVal :=
  .list [
    pesticideEvent 1939 "DDT discovered as insecticide"
      "Paul Hermann Müller discovers DDT\x27s insecticidal properties in Switzerland"
      "Beginning of synthetic pesticide era",
    pesticideEvent 1942 "US military DDT production begins"
      "US begins large-scale DDT production for military use against typhus and malaria"
      "Proven effective against disease-carrying insects",
    pesticideEvent 1943 "DDT used in Naples typhus epidemic"
      "First large-scale civilian use of DDT to control typhus outbreak"
      "Demonstrated public health potential",
    pesticideEvent 1945 "DDT released for civilian use"
      "US government authorizes DDT for general public sale"
      "Agricultural and household use begins",
    pesticideEvent 1946 "Agricultural DDT use begins"
      "Farmers begin using DDT for crop protection; USDA promotes usage"
      "Widespread adoption in agriculture",
    pesticideEvent 1948 "First insect resistance observed"
      "Houseflies show resistance to DDT in some areas"
      "Early warning sign ignored",
    pesticideEvent 1948 "Müller receives Nobel Prize"
      "Paul Müller awarded Nobel Prize in Physiology or Medicine for DDT discovery"
      "DDT seen as miracle chemical",
    pesticideEvent 1950 "Peak DDT enthusiasm"
      "US DDT production reaches massive scale; aerial spraying programs expand"
      "Environmental accumulation begins",
    pesticideEvent 1954 "USDA fire ant eradication program"
      "Massive aerial spraying campaign in Southern states using DDT and other chemicals"
      "Significant wildlife mortality observed",
    pesticideEvent 1957 "First Forest Service restrictions"
      "US Forest Service begins limiting DDT use in some areas due to wildlife concerns"
      "Early regulatory response"]

/-- The full artifact value returned by `build_pesticide_timeline()` and
written to `pesticides_1933_1957.json`. -/
def pesticideTimeline : PyVal :=
  .dict [
    (.str "metadata", .dict [
      (.str "description", .str "Pesticide usage timeline for the Black Mountain, NC region (1933-1957)"),
      (.str "sources", .list [
        .str "EPA Historical Documents",
        .str "USDA Agricultural Statistics",
        .str "US Forest Service Records",
        .str "Rachel Carson\x27s Silent Spring (1962) - historical references",
        .str "NC Department of Agriculture Archives"])]),
    (.str "major_events", pesticideMajorEvents),
    (.str "yearly_data", pesticideYearlyData)]

/-! ## `merge_all_data.py` -/

/-- One pass of the major-events harvesting loops in `merge_all_data`:
for each event of a source artifact, checks
`START_YEAR <= event["year"] <= END_YEAR` (with Python short-circuit
order) and keeps in-range events as tagged merged-event dicts; the farm
loop (`withPeople = true`) additionally copies `key_people`. -/
def harvestEvents (tag : String) (withPeople : Bool) : List PyVal → Except String (List PyVal)
  | [] => .ok []
  | e :: rest => do
      let y ← e.getItem (.str "year")
      if (← pyLE (.int START_YEAR) y) then
        if (← pyLE y (.int END_YEAR)) then
          let ev ← e.getItem (.str "event")
          let desc ← e.getA "description" (.str "")
          let base := [(PyKey.str "year", y), (PyKey.str "type", PyVal.str tag),
                       (PyKey.str "event", ev), (PyKey.str "description", desc)]
          let entry ← if withPeople then do
              let kp ← e.getA "key_people" (.list [])
              pure (PyVal.dict (base ++ [(PyKey.str "key_people", kp)]))
            else pure (PyVal.dict base)
          let tail ← harvestEvents tag withPeople rest
          .ok (entry :: tail)
        else harvestEvents tag withPeople rest
      else harvestEvents tag withPeople rest

/-- The events contributed by one optional source artifact: nothing if
the artifact is falsy, otherwise the harvested
`artifact.get("major_events", [])`. -/
def artifactEvents (tag : String) (withPeople : Bool) (artifact : PyVal) :
    Except String (List PyVal) := do
  if artifact.truthy then
    let evs ← (← artifact.getA "major_events" (.list [])).pyIter
    harvestEvents tag withPeople evs
  else pure []

/-- The sort key `lambda x: x["year"]` of the merged-event sort.  Every
event reaching the sort passed the numeric range check in
`harvestEvents`, so it is a dict with a numeric `"year"`; the fallback
value is never exercised on reachable inputs. -/
def eventYearQ (e : PyVal) : ℚ :=
  match e with
  | .dict kvs =>
      match lookupKvs (.str "year") kvs with
      | some v => v.toQ?.getD 0
      | Option.none => 0
  | _ => 0

/-- Stable insertion into a year-sorted list (Python `list.sort` is
stable). -/
def insertByYear (x : PyVal) : List PyVal → List PyVal
  | [] => [x]
  | y :: ys => if eventYearQ x ≤ eventYearQ y then x :: y :: ys else y :: insertByYear x ys

/-- `events.sort(key=lambda x: x["year"])` as a stable insertion sort. -/
def sortByYear : List PyVal → List PyVal
  | [] => []
  | x :: xs => insertByYear x (sortByYear xs)

/-- The per-year record of `merge_all_data` before any artifact data is
merged in: the documented defaults. -/
def defaultYearEntry (year : Int) : PyVal :=
  .dict [
    (.str "year", .int year),
    (.str "weather", .none),
    (.str "flora", .dict [(.str "trees", .list []), (.str "notable_plants", .list [])]),
    (.str "fauna", .dict [(.str "birds", .list []), (.str "mammals", .list []),
      (.str "fish", .list []), (.str "amphibians", .list [])]),
    (.str "pesticides", .dict [(.str "ddt_available", .bool false), (.str "notes", .str "")]),
    (.str "ecological_events", .list []),
    (.str "farm", .none)]

/-- The weather block of the yearly loop: looks up `year_str` in the
weather artifact and rebuilds the seven-field weather dict. -/
def weatherStep (weather : PyVal) (yearStr : String) (yearly : PyVal) : Except String PyVal := do
  if weather.truthy then
    if (← pyContains weather (.str yearStr)) then
      let w ← weather.getItem (.str yearStr)
      let monthly ← w.getA "monthly" (.list [])
      let t ← w.getA "annual_avg_temp" .none
      let tmax ← w.getA "annual_avg_temp_max" .none
      let tmin ← w.getA "annual_avg_temp_min" .none
      let precip ← w.getA "total_precip_mm" .none
      let est ← w.getA "estimated" (.bool false)
      let src ← w.getA "source" (.str "")
      yearly.setItem (.str "weather") (.dict [
        (.str "monthly", monthly),
        (.str "annual_avg_temp", t),
        (.str "annual_avg_temp_max", tmax),
        (.str "annual_avg_temp_min", tmin),
        (.str "total_precip_mm", precip),
        (.str "estimated", est),
        (.str "source", src)])
    else pure yearly
  else pure yearly

/-- One iteration of `for taxon in ["birds", "mammals", "fish",
"amphibians"]` in the biodiversity block: top-20 GBIF species of the
year for that taxon. -/
def faunaTaxonStep (gbif : PyVal) (yearStr taxon : String) (yearly : PyVal) :
    Except String PyVal := do
  if (← pyContains gbif (.str taxon)) then
    let g ← gbif.getItem (.str taxon)
    if (← pyContains g (.str yearStr)) then
      let entry ← g.getItem (.str yearStr)
      let species ← entry.getA "species" (.list [])
      let top ← species.sliceTo 20
      let fauna ← yearly.getItem (.str "fauna")
      let fauna ← fauna.setItem (.str taxon) top
      yearly.setItem (.str "fauna") fauna
    else pure yearly
  else pure yearly

/-- One "known species for context" fallback of the biodiversity block:
if the fauna list built so far is falsy and the known-species table has
the taxon, substitute its `common_species`. -/
def knownTaxonStep (known : PyVal) (taxon : String) (yearly : PyVal) : Except String PyVal := do
  let fauna ← yearly.getItem (.str "fauna")
  let cur ← fauna.getItem (.str taxon)
  if !cur.truthy then
    if (← pyContains known (.str taxon)) then
      let k ← known.getItem (.str taxon)
      let cs ← k.getA "common_species" (.list [])
      let fauna ← fauna.setItem (.str taxon) cs
      yearly.setItem (.str "fauna") fauna
    else pure yearly
  else pure yearly

/-- The biodiversity block of the yearly loop: GBIF per-year slices for
the four fauna taxa, top-30 plants appended to `notable_plants`, the
known-species fallbacks, and the known trees. -/
def biodiversityStep (bio : PyVal) (yearStr : String) (yearly : PyVal) : Except String PyVal := do
  if bio.truthy then
    let gbif ← bio.getA "gbif_records" (.dict [])
    let yearly ← faunaTaxonStep gbif yearStr "birds" yearly
    let yearly ← faunaTaxonStep gbif yearStr "mammals" yearly
    let yearly ← faunaTaxonStep gbif yearStr "fish" yearly
    let yearly ← faunaTaxonStep gbif yearStr "amphibians" yearly
    let yearly ← do
      if (← pyContains gbif (.str "plants")) then
        let gp ← gbif.getItem (.str "plants")
        if (← pyContains gp (.str yearStr)) then
          let entry ← gp.getItem (.str yearStr)
          let plants ← entry.getA "species" (.list [])
          let top ← plants.sliceTo 30
          let items ← top.pyIter
          let flora ← yearly.getItem (.str "flora")
          let np ← flora.getItem (.str "notable_plants")
          match np with
          | .list xs =>
              let flora ← flora.setItem (.str "notable_plants") (.list (xs ++ items))
              yearly.setItem (.str "flora") flora
          | _ => .error "AttributeError: no method append"
        else pure yearly
      else pure yearly
    let known ← bio.getA "known_species" (.dict [])
    let yearly ← knownTaxonStep known "birds" yearly
    let yearly ← knownTaxonStep known "mammals" yearly
    let yearly ← knownTaxonStep known "fish" yearly
    let yearly ← knownTaxonStep known "amphibians" yearly
    if (← pyContains known (.str "plants")) then
      let kp ← known.getItem (.str "plants")
      let cs ← kp.getA "common_species" (.list [])
      let flora ← yearly.getItem (.str "flora")
      let flora ← flora.setItem (.str "trees") cs
      yearly.setItem (.str "flora") flora
    else pure yearly
  else pure yearly

/-- The pesticide block of the yearly loop.  Note that the membership
test and the lookup use the **int** `year`, exactly as in the source. -/
def pesticideStep (pest : PyVal) (year : Int) (yearly : PyVal) : Except String PyVal := do
  if pest.truthy then
    if (← pyContains pest (.str "yearly_data")) then
      let yd ← pest.getItem (.str "yearly_data")
      if (← pyContains yd (.int year)) then
        let p ← yd.getItem (.int year)
        let a ← p.getA "ddt_available" (.bool false)
        let b ← p.getA "ddt_agricultural_use" (.bool false)
        let c ← p.getA "common_pesticides" (.list [])
        let d ← p.getA "estimated_regional_usage" (.str "unknown")
        let e ← p.getA "notes" (.str "")
        yearly.setItem (.str "pesticides") (.dict [
          (.str "ddt_available", a),
          (.str "ddt_agricultural_use", b),
          (.str "common_pesticides", c),
          (.str "estimated_regional_usage", d),
          (.str "notes", e)])
      else pure yearly
    else pure yearly
  else pure yearly

/-- The chestnut-blight block of the yearly loop, appending the status
event.  As in the source, the lookup key is the **int** `year`. -/
def chestnutStep (chest : PyVal) (year : Int) (yearly : PyVal) : Except String PyVal := do
  if chest.truthy then
    if (← pyContains chest (.str "yearly_status")) then
      let ys ← chest.getItem (.str "yearly_status")
      if (← pyContains ys (.int year)) then
        let c ← ys.getItem (.int year)
        let sts ← c.getA "mature_tree_status" (.str "")
        let pct ← c.getA "estimated_survival_percent" (.int 0)
        let notes ← c.getA "notes" (.str "")
        let ev ← yearly.getItem (.str "ecological_events")
        match ev with
        | .list xs =>
            yearly.setItem (.str "ecological_events") (.list (xs ++ [PyVal.dict [
              (.str "type", .str "chestnut_blight"),
              (.str "species", .str "Castanea dentata"),
              (.str "status", sts),
              (.str "survival_percent", pct),
              (.str "notes", notes)]]))
        | _ => .error "AttributeError: no method append"
      else pure yearly
    else pure yearly
  else pure yearly

/-- The farm block of the yearly loop (string-keyed lookup). -/
def farmYearStep (farm : PyVal) (yearStr : String) (yearly : PyVal) : Except String PyVal := do
  if farm.truthy then
    if (← pyContains farm (.str "yearly_status")) then
      let ys ← farm.getItem (.str "yearly_status")
      if (← pyContains ys (.str yearStr)) then
        let v ← ys.getItem (.str yearStr)
        yearly.setItem (.str "farm") v
      else pure yearly
    else pure yearly
  else pure yearly

/-- One iteration of the yearly loop of `merge_all_data`. -/
def buildYearEntry (weather bio pest chest farm : PyVal) (year : Int) : Except String PyVal := do
  let yearStr := toString year
  let yearly := defaultYearEntry year
  let yearly ← weatherStep weather yearStr yearly
  let yearly ← biodiversityStep bio yearStr yearly
  let yearly ← pesticideStep pest year yearly
  let yearly ← chestnutStep chest year yearly
  farmYearStep farm yearStr yearly

/-- The fixed `metadata` block of the final output (`generated` holds
`datetime.now().isoformat()`, passed in as `now`). -/
def mergeMetadata (now : String) : PyVal :=
  .dict [
    (.str "title", .str "Black Mountain College Ecological Data (1933-1957)"),
    (.str "location", .str "Black Mountain, NC"),
    (.str "coordinates", .list [.float ((355951 : ℚ)/10000), .float ((-825515 : ℚ)/10000)]),
    (.str "elevation_m", .int 670),
    (.str "period", .str (toString START_YEAR ++ "-" ++ toString END_YEAR)),
    (.str "generated", .str now),
    (.str "sources", .list [
      .str "Open-Meteo Historical Weather API",
      .str "GBIF (Global Biodiversity Information Facility)",
      .str "iNaturalist Species Baseline",
      .str "NC Biodiversity Project",
      .str "NC Native Plant Society",
      .str "Coweeta Long-Term Ecological Research (LTER)",
      .str "US Forest Service Historical Records",
      .str "EPA Historical Documents",
      .str "USDA Agricultural Statistics",
      .str "American Chestnut Foundation",
      .str "NC Wildlife Resources Commission",
      .str "NC Natural Heritage Program",
      .str "David Silver, \x27The Farm at Black Mountain College\x27 (2024)",
      .str "Western Regional Archives, Asheville, NC",
      .str "Black Mountain College Museum + Arts Center"]),
    (.str "notes", .list [
      .str "Weather data 1933-1939 is estimated from 1940-1949 averages",
      .str "GBIF biodiversity data is supplemented with historical records",
      .str "Chestnut blight was the major ecological event of this period"])]

/-- The `ecological_context` block with its merged event timeline. -/
def ecologicalContext (events : List PyVal) : PyVal :=
  .dict [
    (.str "region", .str "Southern Blue Ridge Mountains"),
    (.str "ecoregion", .str "Southern Appalachian"),
    (.str "forest_type", .str "Mixed Mesophytic / Appalachian Oak Forest"),
    (.str "climate", .str "Humid subtropical highland (Cfb)"),
    (.str "major_events", .list events)]

/-- `final_data["farm_reference"] = ...` (added only when the farm
artifact is truthy). -/
def farmReferenceStep (farm : PyVal) : Except String (List (PyKey × PyVal)) := do
  if farm.truthy then
    let a ← farm.getA "livestock" (.dict [])
    let b ← farm.getA "crops" (.dict [])
    let c ← farm.getA "buildings" (.dict [])
    let d ← farm.getA "equipment" (.dict [])
    let e ← farm.getA "key_people" (.dict [])
    let f ← farm.getA "programs" (.dict [])
    let g ← farm.getA "organic_practices" (.dict [])
    pure [(.str "farm_reference", .dict [
      (.str "livestock", a), (.str "crops", b), (.str "buildings", c),
      (.str "equipment", d), (.str "key_people", e), (.str "programs", f),
      (.str "organic_practices", g)])]
  else pure []

/-- `final_data["species_reference"] = ...` from the NC Parks artifact. -/
def speciesReferenceStep (ncParks : PyVal) : Except String (List (PyKey × PyVal)) := do
  if ncParks.truthy then
    let a ← ncParks.getA "moths" (.dict [])
    let b ← ncParks.getA "butterflies" (.dict [])
    let c ← ncParks.getA "plants" (.dict [])
    pure [(.str "species_reference", .dict [
      (.str "moths", a), (.str "butterflies", b), (.str "native_plants", c)])]
  else pure []

/-- `final_data["coweeta_baseline"] = ...` from the Coweeta artifact. -/
def coweetaBaselineStep (coweeta : PyVal) : Except String (List (PyKey × PyVal)) := do
  if coweeta.truthy then
    let a ← coweeta.getA "historical_forest_composition" (.dict [])
    let b ← coweeta.getA "chestnut_blight_timeline" (.dict [])
    let c ← coweeta.getA "wildlife_records" (.dict [])
    let d ← coweeta.getA "bmc_era_baseline" (.dict [])
    pure [(.str "coweeta_baseline", .dict [
      (.str "forest_composition", a), (.str "chestnut_blight_timeline", b),
      (.str "historical_wildlife", c), (.str "bmc_era_baseline", d)])]
  else pure []

/-- `final_data["seasonal_calendar"] = ...` from the calendar artifact. -/
def seasonalCalendarStep (seasonal : PyVal) : Except String (List (PyKey × PyVal)) := do
  if seasonal.truthy then
    let a ← seasonal.getA "summary" (.dict [])
    let b ← seasonal.getA "detailed_calendars" (.dict [])
    pure [(.str "seasonal_calendar", .dict [
      (.str "summary", a), (.str "detailed_calendars", b)])]
  else pure []

/-- `final_data["modern_species_baseline"] = ...` from the iNaturalist
artifact. -/
def modernBaselineStep (inat : PyVal) : Except String (List (PyKey × PyVal)) := do
  if inat.truthy then
    let a ← inat.getA "summary" (.dict [])
    let b ← inat.getA "baseline_species" (.dict [])
    let c ← inat.getA "seasonal_patterns" (.dict [])
    pure [(.str "modern_species_baseline", .dict [
      (.str "summary", a), (.str "baseline_species", b), (.str "seasonal_patterns", c)])]
  else pure []

/-- `final_data["historical_specimens"] = ...` from the GBIF historical
artifact. -/
def historicalSpecimensStep (gbifHist : PyVal) : Except String (List (PyKey × PyVal)) := do
  if gbifHist.truthy then
    let a ← gbifHist.getA "summary" (.dict [])
    let b ← gbifHist.getA "species_by_taxon" (.dict [])
    pure [(.str "historical_specimens", .dict [
      (.str "summary", a), (.str "species_by_taxon", b)])]
  else pure []

/-- `merge_all_data()` with the ten loaded artifacts as parameters (the
loader returns `None` — embedded as `PyVal.none` — when the file does
not exist).  Fresh keys assigned into `final_data` after the literal are
appended in assignment order, so the optional reference sections appear
as appended key/value pairs. -/
def mergeAllData (now : String)
    (weather bio pest chest farm ncParks coweeta seasonal inat gbifHist : PyVal) :
    Except String PyVal := do
  let chestnutEvs ← artifactEvents "chestnut_blight" false chest
  let pesticideEvs ← artifactEvents "pesticide" false pest
  let farmEvs ← artifactEvents "farm" true farm
  let events := sortByYear (chestnutEvs ++ pesticideEvs ++ farmEvs)
  let yearly ← yearRange.mapM (buildYearEntry weather bio pest chest farm)
  let extras1 ← farmReferenceStep farm
  let extras2 ← speciesReferenceStep ncParks
  let extras3 ← coweetaBaselineStep coweeta
  let extras4 ← seasonalCalendarStep seasonal
  let extras5 ← modernBaselineStep inat
  let extras6 ← historicalSpecimensStep gbifHist
  pure (.dict ([
    (.str "metadata", mergeMetadata now),
    (.str "ecological_context", ecologicalContext events),
    (.str "yearly_data", .list yearly)]
    ++ extras1 ++ extras2 ++ extras3 ++ extras4 ++ extras5 ++ extras6))

/-! ## `build_seasonal_calendar.py` -/

/-- The month numbers `1..12`. -/
def monthKeys : List Int := (List.range 12).map (fun i => (i : Int) + 1)

/-- The fresh calendar of every builder:
`\x7bmonth: [] for month in range(1, 13)\x7d`. -/
def emptyCalendar : PyVal :=
  .dict (monthKeys.map (fun m => (PyKey.int m, PyVal.list [])))

/-- `calendar[month].append(descriptor)`: the month value must exist and
be a list; Python key semantics decide which int key a numeric `month`
reaches. -/
def calendarAdd (cal month descriptor : PyVal) : Except String PyVal := do
  let cur ← cal.getItem month
  match cur, cal with
  | .list xs, .dict kvs => do
      match (← pyIndexKey month) with
      | some k => pure (.dict (setKvs k (.list (xs ++ [descriptor])) kvs))
      | Option.none => .error "KeyError"
  | _, _ => .error "AttributeError: no method append"

/-- The inner month loop shared by the three artifact-driven builders:
for each month value, the `1 <= month <= 12` guard (Python chained
comparison, raising on non-numbers) and the append of the descriptor
built from the species record. -/
def monthsLoop (mkDescriptor : PyVal → Except String PyVal) (sp : PyVal) (cal : PyVal) :
    List PyVal → Except String PyVal
  | [] => pure cal
  | month :: rest => do
      let lo ← pyLE (.int 1) month
      let inRange ← if lo then pyLE month (.int 12) else pure false
      if inRange then
        let d ← mkDescriptor sp
        let cal ← calendarAdd cal month d
        monthsLoop mkDescriptor sp cal rest
      else monthsLoop mkDescriptor sp cal rest

/-- The outer species loop shared by the builders (`monthsField` is
`"flight_months"` or `"bloom_months"`). -/
def speciesLoop (monthsField : String) (mkDescriptor : PyVal → Except String PyVal)
    (cal : PyVal) : List PyVal → Except String PyVal
  | [] => pure cal
  | sp :: rest => do
      let months ← (← sp.getA monthsField (.list [])).pyIter
      let cal ← monthsLoop mkDescriptor sp cal months
      speciesLoop monthsField mkDescriptor cal rest

/-- The descriptor built for a butterfly (also used for moths, whose
descriptor has the same fields). -/
def butterflyDescriptor (b : PyVal) : Except String PyVal := do
  let sn ← b.getItem (.str "scientific_name")
  let cn ← b.getItem (.str "common_name")
  let fam ← b.getItem (.str "family")
  let ab ← b.getA "abundance" (.str "unknown")
  pure (.dict [(.str "scientific_name", sn), (.str "common_name", cn),
    (.str "family", fam), (.str "abundance", ab)])

/-- The descriptor built for a blooming plant. -/
def plantDescriptor (p : PyVal) : Except String PyVal := do
  let sn ← p.getItem (.str "scientific_name")
  let cn ← p.getItem (.str "common_name")
  let ty ← p.getItem (.str "type")
  let fam ← p.getItem (.str "family")
  let hab ← p.getA "habitat" (.str "")
  pure (.dict [(.str "scientific_name", sn), (.str "common_name", cn),
    (.str "type", ty), (.str "family", fam), (.str "habitat", hab)])

/-- Common shape of `build_butterfly_calendar`, `build_moth_calendar`
and `build_plant_bloom_calendar`: return the fresh calendar when the
artifact is absent/falsy or lacks the section, otherwise run the
species loop over `section["species"]`. -/
def buildSectionCalendar (sectionName monthsField : String)
    (mkDescriptor : PyVal → Except String PyVal) (ncParks : PyVal) :
    Except String PyVal := do
  if !ncParks.truthy then pure emptyCalendar
  else if !(← pyContains ncParks (.str sectionName)) then pure emptyCalendar
  else do
    let species ← (← (← ncParks.getItem (.str sectionName)).getA "species" (.list [])).pyIter
    speciesLoop monthsField mkDescriptor emptyCalendar species

/-- `build_butterfly_calendar(nc_parks_data)`. -/
def build_butterfly_calendar (ncParks : PyVal) : Except String PyVal :=
  buildSectionCalendar "butterflies" "flight_months" butterflyDescriptor ncParks

/-- `build_moth_calendar(nc_parks_data)`. -/
def build_moth_calendar (ncParks : PyVal) : Except String PyVal :=
  buildSectionCalendar "moths" "flight_months" butterflyDescriptor ncParks

/-- `build_plant_bloom_calendar(nc_parks_data)`. -/
def build_plant_bloom_calendar (ncParks : PyVal) : Except String PyVal :=
  buildSectionCalendar "plants" "bloom_months" plantDescriptor ncParks

/-- A record of the fixed bird table. -/
def birdRec (sn cn status : String) (months : List Int) (activity : String) : PyVal :=
  .dict [(.str "scientific_name", .str sn), (.str "common_name", .str cn),
    (.str "status", .str status), (.str "months", .list (months.map PyVal.int)),
    (.str "activity", .str activity)]

/-- The one bird record carrying an extra `notes` field. -/
def birdRecNotes (sn cn status : String) (months : List Int) (activity notes : String) : PyVal :=
  .dict [(.str "scientific_name", .str sn), (.str "common_name", .str cn),
    (.str "status", .str status), (.str "months", .list (months.map PyVal.int)),
    (.str "activity", .str activity), (.str "notes", .str notes)]

/-- The fixed in-code bird table of `build_bird_calendar`. -/
def birdTable : List PyVal := [
  birdRec "Cardinalis cardinalis" "Northern Cardinal" "resident" monthKeys "year-round",
  birdRec "Cyanocitta cristata" "Blue Jay" "resident" monthKeys "year-round",
  birdRec "Poecile carolinensis" "Carolina Chickadee" "resident" monthKeys "year-round",
  birdRec "Sitta carolinensis" "White-breasted Nuthatch" "resident" monthKeys "year-round",
  birdRec "Melanerpes carolinus" "Red-bellied Woodpecker" "resident" monthKeys "year-round",
  birdRec "Dryocopus pileatus" "Pileated Woodpecker" "resident" monthKeys "year-round",
  birdRec "Baeolophus bicolor" "Tufted Titmouse" "resident" monthKeys "year-round",
  birdRec "Corvus brachyrhynchos" "American Crow" "resident" monthKeys "year-round",
  birdRec "Thryothorus ludovicianus" "Carolina Wren" "resident" monthKeys "year-round",
  birdRec "Sialia sialis" "Eastern Bluebird" "resident" monthKeys "year-round",
  birdRec "Pipilo erythrophthalmus" "Eastern Towhee" "resident" monthKeys "year-round",
  birdRec "Zenaida macroura" "Mourning Dove" "resident" monthKeys "year-round",
  birdRec "Mimus polyglottos" "Northern Mockingbird" "resident" monthKeys "year-round",
  birdRec "Bonasa umbellus" "Ruffed Grouse" "resident" monthKeys "year-round",
  birdRec "Junco hyemalis" "Dark-eyed Junco" "winter" [10, 11, 12, 1, 2, 3, 4] "winter visitor",
  birdRec "Regulus satrapa" "Golden-crowned Kinglet" "winter" [10, 11, 12, 1, 2, 3] "winter visitor",
  birdRec "Regulus calendula" "Ruby-crowned Kinglet" "winter" [10, 11, 12, 1, 2, 3, 4] "winter visitor",
  birdRec "Zonotrichia albicollis" "White-throated Sparrow" "winter" [10, 11, 12, 1, 2, 3, 4] "winter visitor",
  birdRecNotes "Spinus tristis" "American Goldfinch" "resident" monthKeys "year-round" "more visible in winter",
  birdRec "Bombycilla cedrorum" "Cedar Waxwing" "winter" [11, 12, 1, 2, 3, 4, 5] "winter-spring visitor",
  birdRec "Piranga olivacea" "Scarlet Tanager" "summer" [4, 5, 6, 7, 8, 9] "breeding",
  birdRec "Piranga rubra" "Summer Tanager" "summer" [4, 5, 6, 7, 8, 9] "breeding",
  birdRec "Hylocichla mustelina" "Wood Thrush" "summer" [4, 5, 6, 7, 8, 9] "breeding",
  birdRec "Catharus fuscescens" "Veery" "summer" [5, 6, 7, 8] "breeding",
  birdRec "Seiurus aurocapilla" "Ovenbird" "summer" [4, 5, 6, 7, 8, 9] "breeding",
  birdRec "Mniotilta varia" "Black-and-white Warbler" "summer" [4, 5, 6, 7, 8, 9] "breeding",
  birdRec "Setophaga cerulea" "Cerulean Warbler" "summer" [4, 5, 6, 7, 8] "breeding",
  birdRec "Setophaga virens" "Black-throated Green Warbler" "summer" [4, 5, 6, 7, 8, 9] "breeding",
  birdRec "Setophaga citrina" "Hooded Warbler" "summer" [4, 5, 6, 7, 8, 9] "breeding",
  birdRec "Geothlypis formosa" "Kentucky Warbler" "summer" [4, 5, 6, 7, 8] "breeding",
  birdRec "Helmitheros vermivorum" "Worm-eating Warbler" "summer" [4, 5, 6, 7, 8] "breeding",
  birdRec "Parkesia motacilla" "Louisiana Waterthrush" "summer" [4, 5, 6, 7, 8] "breeding",
  birdRec "Vireo olivaceus" "Red-eyed Vireo" "summer" [4, 5, 6, 7, 8, 9] "breeding",
  birdRec "Vireo griseus" "White-eyed Vireo" "summer" [4, 5, 6, 7, 8, 9] "breeding",
  birdRec "Contopus virens" "Eastern Wood-Pewee" "summer" [5, 6, 7, 8, 9] "breeding",
  birdRec "Myiarchus crinitus" "Great Crested Flycatcher" "summer" [4, 5, 6, 7, 8] "breeding",
  birdRec "Sayornis phoebe" "Eastern Phoebe" "summer" [3, 4, 5, 6, 7, 8, 9, 10] "breeding",
  birdRec "Progne subis" "Purple Martin" "summer" [4, 5, 6, 7, 8] "breeding",
  birdRec "Hirundo rustica" "Barn Swallow" "summer" [4, 5, 6, 7, 8, 9] "breeding",
  birdRec "Setophaga americana" "Northern Parula" "summer" [4, 5, 6, 7, 8] "breeding",
  birdRec "Icterus galbula" "Baltimore Oriole" "summer" [4, 5, 6, 7, 8] "breeding",
  birdRec "Archilochus colubris" "Ruby-throated Hummingbird" "summer" [4, 5, 6, 7, 8, 9] "breeding",
  birdRec "Coccyzus americanus" "Yellow-billed Cuckoo" "summer" [5, 6, 7, 8, 9] "breeding",
  birdRec "Antrostomus vociferus" "Eastern Whip-poor-will" "summer" [4, 5, 6, 7, 8] "breeding",
  birdRec "Chordeiles minor" "Common Nighthawk" "summer" [5, 6, 7, 8, 9] "breeding",
  birdRec "Buteo jamaicensis" "Red-tailed Hawk" "resident" monthKeys "year-round",
  birdRec "Buteo lineatus" "Red-shouldered Hawk" "resident" monthKeys "year-round",
  birdRec "Accipiter cooperii" "Cooper\x27s Hawk" "resident" monthKeys "year-round",
  birdRec "Haliaeetus leucocephalus" "Bald Eagle" "rare" [11, 12, 1, 2, 3] "winter visitor",
  birdRec "Megascops asio" "Eastern Screech-Owl" "resident" monthKeys "year-round",
  birdRec "Bubo virginianus" "Great Horned Owl" "resident" monthKeys "year-round",
  birdRec "Strix varia" "Barred Owl" "resident" monthKeys "year-round",
  birdRec "Cathartes aura" "Turkey Vulture" "resident" [3, 4, 5, 6, 7, 8, 9, 10, 11] "mostly year-round"]

/-- The descriptor appended for a bird. -/
def birdDescriptor (b : PyVal) : Except String PyVal := do
  let sn ← b.getItem (.str "scientific_name")
  let cn ← b.getItem (.str "common_name")
  let st ← b.getItem (.str "status")
  let ac ← b.getItem (.str "activity")
  pure (.dict [(.str "scientific_name", sn), (.str "common_name", cn),
    (.str "status", st), (.str "activity", ac)])

/-- The bird/amphibian loop: months come from the record's `"months"`
key by direct subscript. -/
def tableLoop (mkDescriptor : PyVal → Except String PyVal) (cal : PyVal) :
    List PyVal → Except String PyVal
  | [] => pure cal
  | r :: rest => do
      let months ← (← r.getItem (.str "months")).pyIter
      let cal ← monthsLoop mkDescriptor r cal months
      tableLoop mkDescriptor cal rest

/-- `build_bird_calendar()` (no input: the table is fixed in code). -/
def build_bird_calendar : Except String PyVal :=
  tableLoop birdDescriptor emptyCalendar birdTable

/-- A record of the fixed amphibian table. -/
def amphRec (sn cn : String) (months : List Int) (activity : String) : PyVal :=
  .dict [(.str "scientific_name", .str sn), (.str "common_name", .str cn),
    (.str "months", .list (months.map PyVal.int)), (.str "activity", .str activity)]

/-- The fixed in-code amphibian table of `build_amphibian_calendar`. -/
def amphibianTable : List PyVal := [
  amphRec "Anaxyrus americanus" "American Toad" [3, 4, 5, 6, 7, 8, 9] "breeding Mar-Jun",
  amphRec "Pseudacris crucifer" "Spring Peeper" [2, 3, 4, 5] "breeding Feb-Apr",
  amphRec "Hyla chrysoscelis" "Cope\x27s Gray Treefrog" [4, 5, 6, 7, 8] "breeding May-Aug",
  amphRec "Rana clamitans" "Green Frog" [4, 5, 6, 7, 8, 9] "breeding May-Aug",
  amphRec "Rana sylvatica" "Wood Frog" [2, 3, 4] "early breeder Feb-Mar",
  amphRec "Lithobates catesbeianus" "American Bullfrog" [5, 6, 7, 8, 9] "breeding May-Aug",
  amphRec "Notophthalmus viridescens" "Eastern Newt" monthKeys "year-round active",
  amphRec "Plethodon jordani" "Jordan\x27s Salamander" monthKeys "year-round, Appalachian endemic",
  amphRec "Desmognathus quadramaculatus" "Black-bellied Salamander" monthKeys "year-round in streams",
  amphRec "Eurycea wilderae" "Blue Ridge Two-lined Salamander" monthKeys "year-round",
  amphRec "Pseudotriton ruber" "Red Salamander" monthKeys "year-round",
  amphRec "Ambystoma maculatum" "Spotted Salamander" [2, 3, 4] "breeding Feb-Apr",
  amphRec "Plethodon glutinosus" "Northern Slimy Salamander" [3, 4, 5, 6, 7, 8, 9, 10] "active spring-fall"]

/-- The descriptor appended for an amphibian. -/
def amphDescriptor (a : PyVal) : Except String PyVal := do
  let sn ← a.getItem (.str "scientific_name")
  let cn ← a.getItem (.str "common_name")
  let ac ← a.getItem (.str "activity")
  pure (.dict [(.str "scientific_name", sn), (.str "common_name", cn),
    (.str "activity", ac)])

/-- `build_amphibian_calendar()` (no input: the table is fixed). -/
def build_amphibian_calendar : Except String PyVal :=
  tableLoop amphDescriptor emptyCalendar amphibianTable

/-! ## Fetcher pagination loops (`fetch_gbif_biodiversity.py`,
`fetch_gbif_historical.py`) -/

/-- What one page request of a pagination loop can produce: an HTTP 200
response with a parsed JSON body, a non-success status, or a raised
transport/parse exception. -/
inductive PageResponse where
  | success (body : PyVal)
  | httpError (code : Int)
  | transportError

/-- The `while True` pagination loop of
`fetch_gbif_biodiversity.fetch_gbif_occurrences`, driven by the
sequence of page responses.  The whole page-processing body sits inside
`try/except Exception`, so any anomaly — non-200 status, raised
exception, or even a malformed body — breaks the loop and the
accumulated records are returned. -/
def fetchLoopBio (acc : List PyVal) : List PageResponse → List PyVal
  | [] => acc
  | .httpError _ :: _ => acc
  | .transportError :: _ => acc
  | .success body :: rest =>
      match body.getA "results" (.list []) with
      | .error _ => acc
      | .ok results =>
          match results.pyIter with
          | .error _ => acc
          | .ok items =>
              let acc := acc ++ items
              match body.getA "endOfRecords" (.bool true) with
              | .error _ => acc
              | .ok eor => if eor.truthy || items.length == 0 then acc
                else fetchLoopBio acc rest

/-- `fetch_gbif_occurrences(taxon_key, taxon_name)` of the biodiversity
fetcher starts the loop with an empty accumulator. -/
def fetch_gbif_occurrences_bio (pages : List PageResponse) : List PyVal :=
  fetchLoopBio [] pages

/-- One pagination loop of
`fetch_gbif_historical.fetch_gbif_occurrences` (used for both the
county query and the bounding-box query).  Only
`requests.exceptions.RequestException` is caught (`raise_for_status`
on a non-success status, and transport errors), breaking the loop with
the accumulated records; a malformed body raises out of the loop. -/
def fetchLoopHist (acc : List PyVal) : List PageResponse → Except String (List PyVal)
  | [] => .ok acc
  | .httpError _ :: _ => .ok acc
  | .transportError :: _ => .ok acc
  | .success body :: rest => do
      let results ← body.getA "results" (.list [])
      if !results.truthy then .ok acc
      else do
        let items ← results.pyIter
        let acc := acc ++ items
        let eor ← body.getA "endOfRecords" (.bool true)
        if eor.truthy then .ok acc else fetchLoopHist acc rest

/-- `record.get("key")` followed by the hashing a Python `set` performs
on it (`TypeError` for unhashable values). -/
def hashableKey (r : PyVal) : Except String PyVal := do
  let k ← r.getA "key" .none
  if k.hashable then pure k else .error "TypeError: unhashable type"

/-- The set comprehension
`\x7br.get("key") for r in all_records\x7d` of the historical fetcher's
merge step (kept as a list; membership is by Python `==`). -/
def existingKeysOf : List PyVal → Except String (List PyVal)
  | [] => .ok []
  | r :: rest => do
      let k ← hashableKey r
      let ks ← existingKeysOf rest
      .ok (k :: ks)

/-- The deduplicating loop of the historical fetcher's merge step: a
bbox record whose key is already in the seen set is dropped, otherwise
it is appended and its key added to the seen set. -/
def dedupLoop (existing acc : List PyVal) : List PyVal → Except String (List PyVal)
  | [] => .ok acc
  | r :: rest => do
      let k ← hashableKey r
      if existing.any (fun e => PyVal.scalarEq k e) then dedupLoop existing acc rest
      else dedupLoop (existing ++ [k]) (acc ++ [r]) rest

/-- The whole merge step: seed the seen set with the county records'
keys, then fold the bbox records through the dedup loop. -/
def mergeDedup (allRecords bboxRecords : List PyVal) : Except String (List PyVal) := do
  let existing ← existingKeysOf allRecords
  dedupLoop existing allRecords bboxRecords

/-! ## The biodiversity artifact written by `fetch_gbif_biodiversity.py`
when GBIF returns no occurrence at all (the sparse-history case its own
comments predict).  `process_occurrences([])` still emits one entry per
year, int-keyed, with an empty species list. -/

/-- One year's entry of `process_occurrences` run on zero occurrences. -/
def gbifEmptyYearEntry : PyVal :=
  .dict [(.str "species", .list []), (.str "total_species", .int 0),
    (.str "total_observations", .int 0)]

/-- The per-taxon map of `process_occurrences([])`: int year keys. -/
def gbifEmptyTaxonYears : PyVal :=
  .dict (yearRange.map (fun y => (PyKey.int y, gbifEmptyYearEntry)))

/-- A known-species record of `add_known_species` (species,
vernacular name, status). -/
def knownSp (sp vn status : String) : PyVal :=
  .dict [(.str "species", .str sp), (.str "vernacular_name", .str vn),
    (.str "status", .str status)]

/-- The known-species record variant with a trailing `notes` field. -/
def knownSpNotes (sp vn status notes : String) : PyVal :=
  .dict [(.str "species", .str sp), (.str "vernacular_name", .str vn),
    (.str "status", .str status), (.str "notes", .str notes)]

/-- One taxon section of `add_known_species`. -/
def knownTaxon (species : List PyVal) (source : String) : PyVal :=
  .dict [(.str "year_range", .list [.int 1933, .int 1957]),
    (.str "common_species", .list species),
    (.str "source", .str source)]

/-- The full `known_species` table returned by `add_known_species()`. -/
def knownSpeciesTable : PyVal :=
  .dict [
    (.str "birds", knownTaxon [
      knownSp "Cardinalis cardinalis" "Northern Cardinal" "common resident",
      knownSp "Cyanocitta cristata" "Blue Jay" "common resident",
      knownSp "Corvus brachyrhynchos" "American Crow" "common resident",
      knownSp "Turdus migratorius" "American Robin" "common resident",
      knownSp "Poecile carolinensis" "Carolina Chickadee" "common resident",
      knownSp "Sitta carolinensis" "White-breasted Nuthatch" "common resident",
      knownSp "Melanerpes carolinus" "Red-bellied Woodpecker" "common resident",
      knownSp "Dryobates pubescens" "Downy Woodpecker" "common resident",
      knownSp "Meleagris gallopavo" "Wild Turkey" "present",
      knownSp "Bonasa umbellus" "Ruffed Grouse" "present",
      knownSp "Cathartes aura" "Turkey Vulture" "common",
      knownSp "Buteo jamaicensis" "Red-tailed Hawk" "present"]
      "Regional ornithological records, Christmas Bird Counts"),
    (.str "mammals", knownTaxon [
      knownSp "Odocoileus virginianus" "White-tailed Deer" "common",
      knownSp "Procyon lotor" "Raccoon" "common",
      knownSp "Sciurus carolinensis" "Eastern Gray Squirrel" "abundant",
      knownSp "Tamias striatus" "Eastern Chipmunk" "common",
      knownSp "Sylvilagus floridanus" "Eastern Cottontail" "common",
      knownSp "Marmota monax" "Groundhog" "present",
      knownSp "Didelphis virginiana" "Virginia Opossum" "common",
      knownSp "Mephitis mephitis" "Striped Skunk" "present",
      knownSp "Ursus americanus" "Black Bear" "present but declining",
      knownSp "Canis latrans" "Coyote" "rare/expanding"]
      "NC Wildlife Resources Commission historical records"),
    (.str "plants", knownTaxon [
      knownSpNotes "Castanea dentata" "American Chestnut" "dying/extinct by 1940s" "Chestnut blight",
      knownSp "Quercus alba" "White Oak" "common",
      knownSp "Quercus rubra" "Northern Red Oak" "common",
      knownSp "Liriodendron tulipifera" "Tulip Poplar" "common",
      knownSp "Acer rubrum" "Red Maple" "common",
      knownSp "Tsuga canadensis" "Eastern Hemlock" "common",
      knownSp "Pinus strobus" "Eastern White Pine" "common",
      knownSp "Rhododendron maximum" "Rosebay Rhododendron" "abundant",
      knownSp "Kalmia latifolia" "Mountain Laurel" "abundant",
      knownSp "Cornus florida" "Flowering Dogwood" "common"]
      "USDA Forest Service records, Coweeta LTER"),
    (.str "fish", knownTaxon [
      knownSp "Salvelinus fontinalis" "Brook Trout" "native, common in streams",
      knownSp "Oncorhynchus mykiss" "Rainbow Trout" "introduced, stocked",
      knownSp "Salmo trutta" "Brown Trout" "introduced, stocked",
      knownSp "Lepomis macrochirus" "Bluegill" "present in ponds",
      knownSp "Micropterus salmoides" "Largemouth Bass" "present in ponds"]
      "NC Wildlife Resources Commission, trout stocking records"),
    (.str "amphibians", knownTaxon [
      knownSp "Plethodon jordani" "Jordan\x27s Salamander" "endemic, common",
      knownSp "Desmognathus quadramaculatus" "Black-bellied Salamander" "common",
      knownSp "Eurycea wilderae" "Blue Ridge Two-lined Salamander" "common",
      knownSp "Rana clamitans" "Green Frog" "common",
      knownSp "Rana catesbeiana" "American Bullfrog" "present",
      knownSp "Hyla versicolor" "Gray Treefrog" "common"]
      "Historical herpetological surveys, Highlands Biological Station")]

/-- The `combined_data` value written to `biodiversity_1933_1957.json`
by the biodiversity fetcher's `main()` when every GBIF query returned
zero occurrences. -/
def biodiversityArtifactNoGbif : PyVal :=
  .dict [
    (.str "gbif_records", .dict [
      (.str "birds", gbifEmptyTaxonYears),
      (.str "mammals", gbifEmptyTaxonYears),
      (.str "plants", gbifEmptyTaxonYears),
      (.str "fish", gbifEmptyTaxonYears),
      (.str "amphibians", gbifEmptyTaxonYears)]),
    (.str "known_species", knownSpeciesTable),
    (.str "metadata", .dict [
      (.str "source", .str "GBIF API + Historical Records"),
      (.str "region", .dict [
        (.str "lat_min", .float 35), (.str "lat_max", .float 36),
        (.str "lon_min", .float (-83)), (.str "lon_max", .float (-82))]),
      (.str "period", .str "1933-1957"),
      (.str "note", .str "GBIF data for 1933-1957 is sparse; known_species contains historically documented species")])]

/-! ## Accessors used only to state the theorems -/

/-- Total dict lookup for statements: the value at key `k`, `PyVal.none`
when absent or when `v` is not a dict. -/
def PyVal.atKey (v : PyVal) (k : PyKey) : PyVal :=
  match v with
  | .dict kvs => (lookupKvs k kvs).getD .none
  | _ => .none

/-- Total string-keyed field access for statements. -/
def PyVal.fieldD (v : PyVal) (k : String) : PyVal := v.atKey (.str k)

/-- The merged output's yearly entry for year `y` (entries are emitted
in year order, one per year starting at `START_YEAR`). -/
def yearEntry (out : PyVal) (y : Int) : PyVal :=
  match out.fieldD "yearly_data" with
  | .list xs => (xs.drop (y - START_YEAR).toNat).headD .none
  | _ => .none

/-- The elements of a list value (empty for non-lists); statement
helper. -/
def listOf (v : PyVal) : List PyVal :=
  match v with
  | .list xs => xs
  | _ => []

/-- Did the embedded computation finish without a Python exception? -/
def exceptOk (e : Except String PyVal) : Bool :=
  match e with
  | .ok _ => true
  | .error _ => false

/-- The value of a successful embedded computation (statement helper). -/
def exceptValD (e : Except String PyVal) : PyVal :=
  match e with
  | .ok v => v
  | .error _ => .none

/-- The merge run with the pesticide and chestnut artifacts present on
disk exactly as their builders' entry points wrote them (so after the
JSON round-trip), and every other artifact absent. -/
def mergeDiskArtifacts : Except String PyVal :=
  mergeAllData "" .none .none (jsonRoundTrip pesticideTimeline)
    (jsonRoundTrip chestnutTimeline) .none .none .none .none .none .none

/-- The output of `mergeDiskArtifacts`. -/
def mergeDiskOut : PyVal := exceptValD mergeDiskArtifacts

/-- The merge run with only the biodiversity artifact present, as
written by the fetcher when GBIF returned no occurrences. -/
def mergeBioNoGbif : Except String PyVal :=
  mergeAllData "" .none (jsonRoundTrip biodiversityArtifactNoGbif)
    .none .none .none .none .none .none .none .none

/-- The output of `mergeBioNoGbif`. -/
def mergeBioNoGbifOut : PyVal := exceptValD mergeBioNoGbif

/-- The same biodiversity artifact with its `known_species` section
removed: the hypothetical artifact that separates the GBIF-slice
behaviour from the known-species fallback. -/
def biodiversityArtifactNoKnown : PyVal :=
  .dict [
    (.str "gbif_records", .dict [
      (.str "birds", gbifEmptyTaxonYears),
      (.str "mammals", gbifEmptyTaxonYears),
      (.str "plants", gbifEmptyTaxonYears),
      (.str "fish", gbifEmptyTaxonYears),
      (.str "amphibians", gbifEmptyTaxonYears)]),
    (.str "metadata", .dict [
      (.str "source", .str "GBIF API + Historical Records"),
      (.str "period", .str "1933-1957")])]

/-- The merge run with only the known-species-free biodiversity
artifact present. -/
def mergeBioNoKnown : Except String PyVal :=
  mergeAllData "" .none (jsonRoundTrip biodiversityArtifactNoKnown)
    .none .none .none .none .none .none .none .none

/-- The output of `mergeBioNoKnown`. -/
def mergeBioNoKnownOut : PyVal := exceptValD mergeBioNoKnown

/-- The pesticides default of the yearly entry. -/
def pesticidesDefault : PyVal :=
  .dict [(.str "ddt_available", .bool false), (.str "notes", .str "")]

/-- The `estimated_survival_percent` of the chestnut builder's record
for year `y`, as an integer (statement helper). -/
def survivalAt (y : Int) : Int :=
  match (chestnutYearlyStatus.atKey (.int y)).fieldD "estimated_survival_percent" with
  | .int n => n
  | _ => -1

mutual

/-- Does every dictionary key inside the value dodge the int-key
stringification, i.e. is every dict key already a string? -/
def allStrKeys : PyVal → Bool
  | .dict kvs => allStrKeysKvs kvs
  | .list xs => allStrKeysList xs
  | _ => true

def allStrKeysList : List PyVal → Bool
  | [] => true
  | x :: xs => allStrKeys x && allStrKeysList xs

def allStrKeysKvs : List (PyKey × PyVal) → Bool
  | [] => true
  | (k, v) :: kvs =>
      (match k with | .str _ => true | .int _ => false) && allStrKeys v && allStrKeysKvs kvs

end

/-- A tiny NC-Parks-style artifact used to instantiate the calendar
theorems: one butterfly with two in-range flight months. -/
def ncParksSample : PyVal :=
  .dict [
    (.str "butterflies", .dict [
      (.str "species", .list [
        .dict [
          (.str "scientific_name", .str "Danaus plexippus"),
          (.str "common_name", .str "Monarch"),
          (.str "family", .str "Nymphalidae"),
          (.str "abundance", .str "common"),
          (.str "flight_months", .list [.int 6, .int 9])]])])]

/-- `k` is (Python-`==`) the `"key"` field of some record in `l`. -/
def keyMem (k : PyVal) (l : List PyVal) : Prop :=
  ∃ r ∈ l, ∃ k2, hashableKey r = .ok k2 ∧ PyVal.scalarEq k k2 = true

/-- The first record of `l` whose `"key"` field Python-equals `k`. -/
def findByKey (k : PyVal) (l : List PyVal) : Option PyVal :=
  l.find? (fun r =>
    match hashableKey r with
    | .ok k2 => PyVal.scalarEq k k2
    | .error _ => false)

/-- Two concrete GBIF-style occurrence records sharing the unique
identifier `4242`, and one with a distinct identifier. -/
def gbifRecA : PyVal :=
  .dict [(.str "key", .int 4242), (.str "species", .str "Castanea dentata"),
    (.str "county", .str "Buncombe")]

/-- A second copy of the identifier-4242 record with different payload
(as the bounding-box query may return). -/
def gbifRecA2 : PyVal :=
  .dict [(.str "key", .int 4242), (.str "species", .str "Castanea dentata"),
    (.str "locality", .str "Lake Eden")]

/-- A record with a fresh identifier. -/
def gbifRecB : PyVal :=
  .dict [(.str "key", .int 7777), (.str "species", .str "Tsuga canadensis")]

/-- An HTTP-200 page whose parsed body carries the given results and
says more pages follow. -/
def okPage (items : List PyVal) : PageResponse :=
  .success (.dict [(.str "results", .list items), (.str "endOfRecords", .bool false)])

/-- An event dict whose `"year"` value is a number within the
configured range (the property every merged major event satisfies). -/
def eventYearInRange (e : PyVal) : Prop :=
  ∃ q, (e.fieldD "year").toQ? = some q ∧ (START_YEAR : ℚ) ≤ q ∧ q ≤ (END_YEAR : ℚ)

/-- The merged major-events timeline of a merge output. -/
def majorEventsOf (out : PyVal) : List PyVal :=
  listOf ((out.fieldD "ecological_context").fieldD "major_events")

/-! ## Theorems -/

/-- C1: with none of the optional processed artifact files present
(every loader returned the absent marker), the Merge Stage succeeds
without error; its `yearly_data` is exactly the 25 default entries, one
per year of the configured range 1933–1957 in order, each carrying the
documented defaults (weather absent, empty flora and fauna lists,
pesticides with `ddt_available` false and empty notes, no ecological
events, farm absent), and its merged event timeline is empty. -/
theorem merge_totality_without_artifacts (now : String) :
    mergeAllData now .none .none .none .none .none .none .none .none .none .none =
      .ok (.dict [
        (.str "metadata", mergeMetadata now),
        (.str "ecological_context", ecologicalContext []),
        (.str "yearly_data", .list (yearRange.map defaultYearEntry))]) ∧
    (yearRange.map defaultYearEntry).length = 25 ∧
    yearRange = [1933, 1934, 1935, 1936, 1937, 1938, 1939, 1940, 1941, 1942, 1943, 1944,
      1945, 1946, 1947, 1948, 1949, 1950, 1951, 1952, 1953, 1954, 1955, 1956, 1957] :=
  ⟨rfl, rfl, by decide⟩

/-- Witness for the totality theorem at a concrete timestamp. -/
theorem merge_totality_without_artifacts_witness :
    mergeAllData "2024-01-01T00:00:00" .none .none .none .none .none .none .none .none
        .none .none =
      .ok (.dict [
        (.str "metadata", mergeMetadata "2024-01-01T00:00:00"),
        (.str "ecological_context", ecologicalContext []),
        (.str "yearly_data", .list (yearRange.map defaultYearEntry))]) ∧
    (yearRange.map defaultYearEntry).length = 25 ∧
    yearRange = [1933, 1934, 1935, 1936, 1937, 1938, 1939, 1940, 1941, 1942, 1943, 1944,
      1945, 1946, 1947, 1948, 1949, 1950, 1951, 1952, 1953, 1954, 1955, 1956, 1957] :=
  merge_totality_without_artifacts "2024-01-01T00:00:00"

/-- C2 (exhibit of the code bug): run the merge with the pesticide and
chestnut artifacts present on disk exactly as the builders' entry
points serialize them (JSON stringifies their int year keys, conjunct
5).  The merge's lookups use the int year, so for every year of the
range the output keeps the default pesticides block and an empty
ecological-events list (conjuncts 2 and 3) — even though the artifact's
own record for 1946 says DDT is available (conjunct 4), which the claim
says the merged entry must carry. -/
theorem merge_misses_disk_keyed_artifacts :
    exceptOk mergeDiskArtifacts = true ∧
    yearRange.map (fun y => (yearEntry mergeDiskOut y).fieldD "pesticides") =
      List.replicate 25 pesticidesDefault ∧
    yearRange.map (fun y => (yearEntry mergeDiskOut y).fieldD "ecological_events") =
      List.replicate 25 (.list []) ∧
    (pesticideYearFor 1946).fieldD "ddt_available" = .bool true ∧
    ((jsonRoundTrip pesticideTimeline).fieldD "yearly_data").topKeys =
      yearRange.map (fun y => PyKey.str (toString y)) :=
  ⟨rfl, rfl, rfl, rfl, rfl⟩

/-- C4 (counterexample): the chestnut timeline — a processed artifact
value produced by a builder — does not read back with identical keys:
its `yearly_status` is keyed by int years before writing and by their
decimal strings after the disk round-trip. -/
theorem chestnut_roundtrip_changes_key_type :
    (chestnutTimeline.fieldD "yearly_status").topKeys = yearRange.map PyKey.int ∧
    ((jsonRoundTrip chestnutTimeline).fieldD "yearly_status").topKeys =
      yearRange.map (fun y => PyKey.str (toString y)) ∧
    PyKey.int 1933 ∈ (chestnutTimeline.fieldD "yearly_status").topKeys ∧
    PyKey.int 1933 ∉ ((jsonRoundTrip chestnutTimeline).fieldD "yearly_status").topKeys :=
  ⟨rfl, rfl, by decide, by decide⟩

mutual

/-- C4 (amended): the round-trip through the builders' JSON serializer
and the Merge Stage's loader is the identity on every artifact value
whose dictionary keys are all strings; only int-keyed maps (such as the
builders' yearly maps) change, their keys becoming decimal strings. -/
theorem roundtrip_id_of_string_keys : ∀ v, allStrKeys v = true → jsonRoundTrip v = v
  | .none, _ => rfl
  | .bool _, _ => rfl
  | .int _, _ => rfl
  | .float _, _ => rfl
  | .str _, _ => rfl
  | .list xs, h => congrArg PyVal.list (roundtripList_id_of_string_keys xs h)
  | .dict kvs, h => congrArg PyVal.dict (roundtripKvs_id_of_string_keys kvs h)

theorem roundtripList_id_of_string_keys :
    ∀ xs, allStrKeysList xs = true → jsonRoundTripList xs = xs
  | [], _ => rfl
  | x :: xs, h => by
      have h' := (Bool.and_eq_true _ _).mp h
      rw [jsonRoundTripList, roundtrip_id_of_string_keys x h'.1,
        roundtripList_id_of_string_keys xs h'.2]

theorem roundtripKvs_id_of_string_keys :
    ∀ kvs, allStrKeysKvs kvs = true → jsonRoundTripKvs kvs = kvs
  | [], _ => rfl
  | (PyKey.str s, v) :: kvs, h => by
      have h' := (Bool.and_eq_true _ _).mp h
      have h'' := (Bool.and_eq_true _ _).mp h'.1
      rw [jsonRoundTripKvs, roundtrip_id_of_string_keys v h''.2,
        roundtripKvs_id_of_string_keys kvs h'.2]
  | (PyKey.int n, v) :: kvs, h => by simp [allStrKeysKvs] at h

end

/-- Witness: the amended round-trip theorem applied to a concrete
builder-produced piece, the pesticide artifact's metadata block. -/
theorem roundtrip_id_of_string_keys_witness :
    jsonRoundTrip (pesticideTimeline.fieldD "metadata") =
      pesticideTimeline.fieldD "metadata" :=
  roundtrip_id_of_string_keys (pesticideTimeline.fieldD "metadata") rfl

/-- C5: the chestnut builder's `yearly_status` has exactly one record
per year of 1933–1957, keyed in order with no gaps or duplicates; its
`estimated_survival_percent` sequence is non-increasing over the years
and takes the bucket values 40, 15, 2, 0 in that order. -/
theorem chestnut_yearly_status_onePerYear_monotone :
    chestnutYearlyStatus.topKeys = yearRange.map PyKey.int ∧
    yearRange = [1933, 1934, 1935, 1936, 1937, 1938, 1939, 1940, 1941, 1942, 1943, 1944,
      1945, 1946, 1947, 1948, 1949, 1950, 1951, 1952, 1953, 1954, 1955, 1956, 1957] ∧
    yearRange.map survivalAt = [40, 15, 15, 15, 15, 15, 2, 2, 2, 2, 2, 2, 2,
      0, 0, 0, 0, 0, 0, 0, 0, 0, 0, 0, 0] ∧
    List.Pairwise (fun a b => b ≤ a) (yearRange.map survivalAt) ∧
    (yearRange.map survivalAt).dedup = [40, 15, 2, 0] :=
  ⟨rfl, by decide, rfl, by decide, by decide⟩

/-- C6: the chestnut builder's 1933 record reads dying / 40 percent /
emerging root sprouts / no salvage logging, and its 1940 record reads
functionally extinct / 2 percent / salvage logging active. -/
theorem chestnut_example_scenario_1933_1940 :
    (chestnutYearlyStatus.atKey (.int 1933)).fieldD "mature_tree_status" = .str "dying" ∧
    (chestnutYearlyStatus.atKey (.int 1933)).fieldD "estimated_survival_percent" = .int 40 ∧
    (chestnutYearlyStatus.atKey (.int 1933)).fieldD "root_sprouts" = .str "emerging" ∧
    (chestnutYearlyStatus.atKey (.int 1933)).fieldD "salvage_logging" = .bool false ∧
    (chestnutYearlyStatus.atKey (.int 1940)).fieldD "mature_tree_status" =
      .str "functionally_extinct" ∧
    (chestnutYearlyStatus.atKey (.int 1940)).fieldD "estimated_survival_percent" = .int 2 ∧
    (chestnutYearlyStatus.atKey (.int 1940)).fieldD "salvage_logging" = .bool true :=
  ⟨rfl, rfl, rfl, rfl, rfl, rfl, rfl⟩

/-- C3 (counterexample): the biodiversity artifact written by the
fetcher when GBIF returned nothing is present and has an empty GBIF
species list for birds in 1933 (conjunct 2), yet the merged 1933 bird
list is not the empty list: the merge substitutes the artifact's
known-species table (conjuncts 3–5). -/
theorem merged_fauna_not_empty_despite_no_gbif_records :
    exceptOk mergeBioNoGbif = true ∧
    ((((jsonRoundTrip biodiversityArtifactNoGbif).fieldD "gbif_records").fieldD
        "birds").fieldD "1933").fieldD "species" = .list [] ∧
    ((yearEntry mergeBioNoGbifOut 1933).fieldD "fauna").fieldD "birds" =
      (knownSpeciesTable.fieldD "birds").fieldD "common_species" ∧
    (listOf (((yearEntry mergeBioNoGbifOut 1933).fieldD "fauna").fieldD "birds")).length = 12 ∧
    ((yearEntry mergeBioNoGbifOut 1933).fieldD "fauna").fieldD "birds" ≠ .list [] :=
  ⟨rfl, rfl, rfl, rfl, by
    intro h
    exact absurd (congrArg (fun v => (listOf v).length) h) (by decide)⟩

/-- C3 (amended): a missing per-year entry leaves weather and farm at
their documented defaults, and an absent pesticide artifact leaves the
default pesticides block; but a fauna taxon with no GBIF records falls
back to the artifact's `known_species` common-species list whenever
that table has the taxon, and is the empty list only when the artifact
also lacks a `known_species` entry for it. -/
theorem merge_defaults_with_known_species_fallback :
    exceptOk mergeBioNoGbif = true ∧
    yearRange.map (fun y => ((yearEntry mergeBioNoGbifOut y).fieldD "fauna").fieldD "birds") =
      List.replicate 25 ((knownSpeciesTable.fieldD "birds").fieldD "common_species") ∧
    yearRange.map (fun y => (yearEntry mergeBioNoGbifOut y).fieldD "weather") =
      List.replicate 25 .none ∧
    yearRange.map (fun y => (yearEntry mergeBioNoGbifOut y).fieldD "farm") =
      List.replicate 25 .none ∧
    yearRange.map (fun y => (yearEntry mergeBioNoGbifOut y).fieldD "pesticides") =
      List.replicate 25 pesticidesDefault ∧
    exceptOk mergeBioNoKnown = true ∧
    yearRange.map (fun y => ((yearEntry mergeBioNoKnownOut y).fieldD "fauna").fieldD "birds") =
      List.replicate 25 (.list []) ∧
    yearRange.map (fun y =>
        ((yearEntry mergeBioNoKnownOut y).fieldD "fauna").fieldD "amphibians") =
      List.replicate 25 (.list []) :=
  ⟨rfl, rfl, rfl, rfl, rfl, rfl, rfl, rfl⟩

/-- Inversion for a successful `Except` bind. -/
theorem exceptBind_ok {α β : Type} {e : Except String α} {f : α → Except String β} {b : β}
    (h : (e >>= f) = .ok b) : ∃ a, e = .ok a ∧ f a = .ok b := by
  cases e with
  | ok a => exact ⟨a, rfl, h⟩
  | error msg => simp [Bind.bind, Except.bind] at h

/-- Updating an existing key leaves the key list of a dict unchanged. -/
theorem setKvs_keys_of_mem {k : PyKey} {v w : PyVal} :
    ∀ {kvs : List (PyKey × PyVal)}, lookupKvs k kvs = some w →
      (setKvs k v kvs).map Prod.fst = kvs.map Prod.fst := by
  intro kvs
  induction kvs with
  | nil => intro h; simp [lookupKvs] at h
  | cons p rest ih =>
      intro h
      obtain ⟨k', v'⟩ := p
      by_cases hk : k' = k
      · simp [setKvs, hk]
      · simp only [lookupKvs, if_neg hk] at h
        simp [setKvs, if_neg hk, ih h]

/-- A successful `calendar[month].append(...)` never changes the
calendar's key list. -/
theorem calendarAdd_topKeys {cal m d cal' : PyVal} (h : calendarAdd cal m d = .ok cal') :
    cal'.topKeys = cal.topKeys := by
  unfold calendarAdd at h
  obtain ⟨cur, hg, h⟩ := exceptBind_ok h
  cases cal with
  | dict kvs =>
      cases cur with
      | list xs =>
          obtain ⟨k?, hk, h⟩ := exceptBind_ok h
          cases k? with
          | none => exact Except.noConfusion h
          | some k =>
              cases Except.ok.inj h
              unfold PyVal.getItem at hg
              obtain ⟨k2?, hk2, hg⟩ := exceptBind_ok hg
              rw [hk] at hk2
              cases Except.ok.inj hk2
              cases hl : lookupKvs k kvs with
              | none =>
                  have hg2 : (match lookupKvs k kvs with
                      | some w => Except.ok w
                      | Option.none => Except.error "KeyError") = Except.ok (PyVal.list xs) := hg
                  rw [hl] at hg2
                  exact Except.noConfusion hg2
              | some w =>
                  simp only [PyVal.topKeys]
                  exact setKvs_keys_of_mem hl
      | none => exact Except.noConfusion h
      | bool b => exact Except.noConfusion h
      | int n => exact Except.noConfusion h
      | float q => exact Except.noConfusion h
      | str s => exact Except.noConfusion h
      | dict kvs2 => exact Except.noConfusion h
  | none => cases cur <;> exact Except.noConfusion h
  | bool b => cases cur <;> exact Except.noConfusion h
  | int n => cases cur <;> exact Except.noConfusion h
  | float q => cases cur <;> exact Except.noConfusion h
  | str s => cases cur <;> exact Except.noConfusion h
  | list xs => cases cur <;> exact Except.noConfusion h

/-- The month loop never changes the calendar's key list. -/
theorem monthsLoop_topKeys {mk : PyVal → Except String PyVal} {sp : PyVal} :
    ∀ (months : List PyVal) (cal cal' : PyVal),
      monthsLoop mk sp cal months = .ok cal' → cal'.topKeys = cal.topKeys := by
  intro months
  induction months with
  | nil =>
      intro cal cal' h
      cases Except.ok.inj h
      rfl
  | cons m rest ih =>
      intro cal cal' h
      unfold monthsLoop at h
      obtain ⟨lo, h1, h⟩ := exceptBind_ok h
      cases lo with
      | false => exact ih cal cal' h
      | true =>
          obtain ⟨inR, h2, h⟩ := exceptBind_ok h
          cases inR with
          | false => exact ih cal cal' h
          | true =>
              obtain ⟨d, h3, h⟩ := exceptBind_ok h
              obtain ⟨cal2, h4, h⟩ := exceptBind_ok h
              exact (ih cal2 cal' h).trans (calendarAdd_topKeys h4)

/-- The species loop never changes the calendar's key list. -/
theorem speciesLoop_topKeys {mf : String} {mk : PyVal → Except String PyVal} :
    ∀ (species : List PyVal) (cal cal' : PyVal),
      speciesLoop mf mk cal species = .ok cal' → cal'.topKeys = cal.topKeys := by
  intro species
  induction species with
  | nil =>
      intro cal cal' h
      cases Except.ok.inj h
      rfl
  | cons sp rest ih =>
      intro cal cal' h
      unfold speciesLoop at h
      obtain ⟨msv, h1, h⟩ := exceptBind_ok h
      obtain ⟨months, h2, h⟩ := exceptBind_ok h
      obtain ⟨cal2, h3, h⟩ := exceptBind_ok h
      exact (ih cal2 cal' h).trans (monthsLoop_topKeys months cal cal2 h3)

/-- The bird/amphibian table loop never changes the key list. -/
theorem tableLoop_topKeys {mk : PyVal → Except String PyVal} :
    ∀ (tbl : List PyVal) (cal cal' : PyVal),
      tableLoop mk cal tbl = .ok cal' → cal'.topKeys = cal.topKeys := by
  intro tbl
  induction tbl with
  | nil =>
      intro cal cal' h
      cases Except.ok.inj h
      rfl
  | cons r rest ih =>
      intro cal cal' h
      unfold tableLoop at h
      obtain ⟨msv, h1, h⟩ := exceptBind_ok h
      obtain ⟨months, h2, h⟩ := exceptBind_ok h
      obtain ⟨cal2, h3, h⟩ := exceptBind_ok h
      exact (ih cal2 cal' h).trans (monthsLoop_topKeys months cal cal2 h3)

/-- Any successfully built section calendar has exactly the keys
`1..12`. -/
theorem buildSectionCalendar_topKeys {sec mf : String} {mk : PyVal → Except String PyVal}
    {x c : PyVal} (h : buildSectionCalendar sec mf mk x = .ok c) :
    c.topKeys = monthKeys.map PyKey.int := by
  unfold buildSectionCalendar at h
  cases hx : x.truthy with
  | false =>
      rw [hx] at h
      simp only [Bool.not_false, if_true] at h
      cases Except.ok.inj h
      rfl
  | true =>
      rw [hx] at h
      simp only [Bool.not_true, Bool.false_eq_true, if_false] at h
      obtain ⟨b, h1, h⟩ := exceptBind_ok h
      cases b with
      | false =>
          simp only [Bool.not_false, if_true] at h
          cases Except.ok.inj h
          rfl
      | true =>
          simp only [Bool.not_true, Bool.false_eq_true, if_false] at h
          obtain ⟨sect, h2, h⟩ := exceptBind_ok h
          obtain ⟨spv, h3, h⟩ := exceptBind_ok h
          obtain ⟨species, h4, h⟩ := exceptBind_ok h
          exact speciesLoop_topKeys species emptyCalendar c h

set_option maxRecDepth 100000 in
/-- C7: every taxon calendar of the Calendar Builder is keyed by
exactly the months 1..12 — for any input at all for the three
artifact-driven builders, and for the fixed-table bird and amphibian
builders — and an absent source artifact yields the all-empty
calendar for each artifact-driven taxon. -/
theorem calendars_keyed_by_months_1_to_12 :
    (∀ x c, build_butterfly_calendar x = .ok c → c.topKeys = monthKeys.map PyKey.int) ∧
    (∀ x c, build_moth_calendar x = .ok c → c.topKeys = monthKeys.map PyKey.int) ∧
    (∀ x c, build_plant_bloom_calendar x = .ok c → c.topKeys = monthKeys.map PyKey.int) ∧
    (∃ c, build_bird_calendar = .ok c ∧ c.topKeys = monthKeys.map PyKey.int) ∧
    (∃ c, build_amphibian_calendar = .ok c ∧ c.topKeys = monthKeys.map PyKey.int) ∧
    build_butterfly_calendar .none = .ok emptyCalendar ∧
    build_moth_calendar .none = .ok emptyCalendar ∧
    build_plant_bloom_calendar .none = .ok emptyCalendar ∧
    emptyCalendar.topKeys = monthKeys.map PyKey.int ∧
    monthKeys = [1, 2, 3, 4, 5, 6, 7, 8, 9, 10, 11, 12] :=
  ⟨fun _ _ h => buildSectionCalendar_topKeys h,
   fun _ _ h => buildSectionCalendar_topKeys h,
   fun _ _ h => buildSectionCalendar_topKeys h,
   ⟨exceptValD build_bird_calendar, rfl, rfl⟩,
   ⟨exceptValD build_amphibian_calendar, rfl, rfl⟩,
   rfl, rfl, rfl, rfl, by decide⟩

/-- Witness: the calendar key-set theorem applied at concrete inputs
(a one-butterfly NC Parks artifact, and the absent artifact). -/
theorem calendars_keyed_by_months_witness :
    (exceptValD (build_butterfly_calendar ncParksSample)).topKeys =
      monthKeys.map PyKey.int ∧
    (emptyCalendar : PyVal).topKeys = monthKeys.map PyKey.int :=
  ⟨calendars_keyed_by_months_1_to_12.1 ncParksSample
      (exceptValD (build_butterfly_calendar ncParksSample)) rfl,
   calendars_keyed_by_months_1_to_12.2.2.1 PyVal.none emptyCalendar rfl⟩

theorem scalarEq_iff {a b : PyVal} : PyVal.scalarEq a b = true ↔
    (∃ q, a.toQ? = some q ∧ b.toQ? = some q) ∨
    (∃ s, a = .str s ∧ b = .str s) ∨ (a = .none ∧ b = .none) := by
  cases a <;> cases b <;>
    simp [PyVal.scalarEq, PyVal.toQ?, beq_iff_eq, and_assoc] <;> exact eq_comm

/-- Reduction of a successful `Except` bind. -/
theorem exceptBind_ok_eq {α β : Type} (a : α) (f : α → Except String β) :
    (Except.ok a >>= f) = f a := rfl

/-- Transitivity of the scalar Python `==`. -/
theorem scalarEq_trans {a b c : PyVal} (h1 : PyVal.scalarEq a b = true)
    (h2 : PyVal.scalarEq b c = true) : PyVal.scalarEq a c = true := by
  rw [scalarEq_iff] at h1 h2 ⊢
  rcases h1 with ⟨q, ha, hb⟩ | ⟨s, ha, hb⟩ | ⟨ha, hb⟩
  · rcases h2 with ⟨q', hb', hc⟩ | ⟨s', hb', hc⟩ | ⟨hb', hc⟩
    · rw [hb] at hb'
      cases Option.some.inj hb'
      exact Or.inl ⟨q, ha, hc⟩
    · subst hb'; simp [PyVal.toQ?] at hb
    · subst hb'; simp [PyVal.toQ?] at hb
  · rcases h2 with ⟨q', hb', hc⟩ | ⟨s', hb', hc⟩ | ⟨hb', hc⟩
    · subst hb; simp [PyVal.toQ?] at hb'
    · subst hb; cases PyVal.str.inj hb'; exact Or.inr (Or.inl ⟨s, ha, hc⟩)
    · subst hb; exact PyVal.noConfusion hb'
  · rcases h2 with ⟨q', hb', hc⟩ | ⟨s', hb', hc⟩ | ⟨hb', hc⟩
    · subst hb; simp [PyVal.toQ?] at hb'
    · subst hb; exact PyVal.noConfusion hb'
    · exact Or.inr (Or.inr ⟨ha, hc⟩)

/-- The dedup loop only ever appends to its accumulator. -/
theorem dedupLoop_prefix :
    ∀ (bbox : List PyVal) (existing acc out : List PyVal),
      dedupLoop existing acc bbox = .ok out → ∃ t, out = acc ++ t := by
  intro bbox
  induction bbox with
  | nil =>
      intro existing acc out h
      cases Except.ok.inj h
      exact ⟨[], by simp⟩
  | cons r rest ih =>
      intro existing acc out h
      unfold dedupLoop at h
      obtain ⟨k, hk, h⟩ := exceptBind_ok h
      by_cases hc : (existing.any fun e => PyVal.scalarEq k e) = true
      · rw [if_pos hc] at h
        exact ih existing acc out h
      · rw [if_neg hc] at h
        obtain ⟨t, ht⟩ := ih (existing ++ [k]) (acc ++ [r]) out h
        exact ⟨r :: t, by simpa using ht⟩

/-- Feeding the dedup loop a record whose key was already seen — in
the seed set or among the records already processed — leaves the result
unchanged (size `N`, not `N + 1`). -/
theorem dedupLoop_duplicate_append :
    ∀ (bbox : List PyVal) (existing acc out : List PyVal) (r : PyVal) (k : PyVal),
      dedupLoop existing acc bbox = .ok out → hashableKey r = .ok k →
      ((existing.any fun e => PyVal.scalarEq k e) = true ∨ keyMem k bbox) →
      dedupLoop existing acc (bbox ++ [r]) = .ok out := by
  intro bbox
  induction bbox with
  | nil =>
      intro existing acc out r k h hk hmem
      cases Except.ok.inj h
      have hex : (existing.any fun e => PyVal.scalarEq k e) = true := by
        rcases hmem with hex | ⟨w, hw, _⟩
        · exact hex
        · simp at hw
      show dedupLoop existing acc [r] = .ok acc
      unfold dedupLoop
      rw [hk, exceptBind_ok_eq]
      rw [if_pos hex]
      rfl
  | cons b rest ih =>
      intro existing acc out r k h hk hmem
      unfold dedupLoop at h
      obtain ⟨kb, hkb, h⟩ := exceptBind_ok h
      show dedupLoop existing acc (b :: (rest ++ [r])) = .ok out
      unfold dedupLoop
      rw [hkb, exceptBind_ok_eq]
      by_cases hc : (existing.any fun e => PyVal.scalarEq kb e) = true
      · rw [if_pos hc] at h ⊢
        refine ih existing acc out r k h hk ?_
        rcases hmem with hex | ⟨w, hw, k2, hk2, hsc⟩
        · exact Or.inl hex
        · rcases List.mem_cons.mp hw with hwb | hwr
          · subst hwb
            rw [hkb] at hk2
            cases Except.ok.inj hk2
            obtain ⟨e, he, hse⟩ := List.any_eq_true.mp hc
            exact Or.inl (List.any_eq_true.mpr ⟨e, he, scalarEq_trans hsc hse⟩)
          · exact Or.inr ⟨w, hwr, k2, hk2, hsc⟩
      · rw [if_neg hc] at h ⊢
        refine ih (existing ++ [kb]) (acc ++ [b]) out r k h hk ?_
        rcases hmem with hex | ⟨w, hw, k2, hk2, hsc⟩
        · refine Or.inl (List.any_eq_true.mpr ?_)
          obtain ⟨e, he, hse⟩ := List.any_eq_true.mp hex
          exact ⟨e, by simp [he], hse⟩
        · rcases List.mem_cons.mp hw with hwb | hwr
          · subst hwb
            rw [hkb] at hk2
            cases Except.ok.inj hk2
            exact Or.inl (List.any_eq_true.mpr ⟨kb, by simp, hsc⟩)
          · exact Or.inr ⟨w, hwr, k2, hk2, hsc⟩

/-- A record already findable in the accumulator stays the found one. -/
theorem dedupLoop_find_acc {bbox existing acc out : List PyVal} {k r : PyVal}
    (h : dedupLoop existing acc bbox = .ok out) (hf : findByKey k acc = some r) :
    findByKey k out = some r := by
  obtain ⟨t, ht⟩ := dedupLoop_prefix bbox existing acc out h
  subst ht
  unfold findByKey at hf ⊢
  rw [List.find?_append, hf]
  rfl

/-- The test `findByKey` performs on one leading record whose key
hashed successfully. -/
theorem findByKey_cons_ok {k r k2 : PyVal} {l : List PyVal}
    (hr : hashableKey r = .ok k2) :
    findByKey k (r :: l) =
      if PyVal.scalarEq k k2 = true then some r else findByKey k l := by
  unfold findByKey
  by_cases hs : PyVal.scalarEq k k2 = true
  · rw [if_pos hs]
    exact List.find?_cons_of_pos _ (by rw [hr]; exact hs)
  · rw [if_neg hs]
    exact List.find?_cons_of_neg _ (by rw [hr]; simpa using hs)

/-- Through the dedup loop, looking a key up in the merged result finds
exactly what looking it up in the raw concatenation finds: the
first-seen copy survives. -/
theorem dedupLoop_find_eq :
    ∀ (bbox : List PyVal) (existing acc out : List PyVal) (k : PyVal),
      dedupLoop existing acc bbox = .ok out →
      (existing.any fun e => PyVal.scalarEq k e) = false →
      findByKey k acc = none →
      findByKey k out = findByKey k bbox := by
  intro bbox
  induction bbox with
  | nil =>
      intro existing acc out k h hex hacc
      cases Except.ok.inj h
      exact hacc
  | cons b rest ih =>
      intro existing acc out k h hex hacc
      unfold dedupLoop at h
      obtain ⟨kb, hkb, h⟩ := exceptBind_ok h
      rw [findByKey_cons_ok hkb]
      by_cases hc : (existing.any fun e => PyVal.scalarEq kb e) = true
      · rw [if_pos hc] at h
        have hskb : PyVal.scalarEq k kb = false := by
          by_contra hne
          obtain ⟨e, he, hse⟩ := List.any_eq_true.mp hc
          have : (existing.any fun e => PyVal.scalarEq k e) = true :=
            List.any_eq_true.mpr ⟨e, he,
              scalarEq_trans (Bool.not_eq_false _ ▸ hne) hse⟩
          rw [this] at hex
          exact Bool.noConfusion hex
        rw [hskb]
        simp only [Bool.false_eq_true, if_false]
        exact ih existing acc out k h hex hacc
      · rw [if_neg hc] at h
        by_cases hs : PyVal.scalarEq k kb = true
        · rw [hs, if_pos rfl]
          refine dedupLoop_find_acc h ?_
          unfold findByKey at hacc ⊢
          rw [List.find?_append, hacc]
          rw [Option.none_or]
          exact List.find?_cons_of_pos _ (by rw [hkb]; exact hs)
        · rw [Bool.not_eq_true] at hs
          rw [hs]
          simp only [Bool.false_eq_true, if_false]
          refine ih (existing ++ [kb]) (acc ++ [b]) out k h ?_ ?_
          · rw [List.any_append]
            simp [hex, hs]
          · unfold findByKey at hacc ⊢
            rw [List.find?_append, hacc]
            rw [Option.none_or]
            rw [List.find?_cons_of_neg _ (by rw [hkb]; simp [hs])]
            rfl
  
/-- The seeded key set answers membership exactly as scanning the
county records' keys does. -/
theorem existingKeysOf_any :
    ∀ (l : List PyVal) (ex : List PyVal) (k : PyVal),
      existingKeysOf l = .ok ex →
      ((ex.any fun e => PyVal.scalarEq k e) = true ↔
        ∃ r ∈ l, ∃ k2, hashableKey r = .ok k2 ∧ PyVal.scalarEq k k2 = true) := by
  intro l
  induction l with
  | nil =>
      intro ex k h
      cases Except.ok.inj h
      simp
  | cons r rest ih =>
      intro ex k h
      unfold existingKeysOf at h
      obtain ⟨kr, hkr, h⟩ := exceptBind_ok h
      obtain ⟨ks, hks, h⟩ := exceptBind_ok h
      cases Except.ok.inj h
      constructor
      · intro ha
        rcases List.any_eq_true.mp ha with ⟨e, he, hse⟩
        rcases List.mem_cons.mp he with heq | het
        · exact ⟨r, List.mem_cons_self r rest, kr, hkr, by rw [← heq]; exact hse⟩
        · obtain ⟨w, hw, k2, hk2, hs2⟩ :=
            (ih ks k hks).mp (List.any_eq_true.mpr ⟨e, het, hse⟩)
          exact ⟨w, List.mem_cons_of_mem r hw, k2, hk2, hs2⟩
      · rintro ⟨w, hw, k2, hk2, hs2⟩
        rcases List.mem_cons.mp hw with hweq | hwt
        · rw [hweq, hkr] at hk2
          have hkk : kr = k2 := Except.ok.inj hk2
          exact List.any_eq_true.mpr ⟨kr, List.mem_cons_self _ _, by rw [hkk]; exact hs2⟩
        · have := (ih ks k hks).mpr ⟨w, hwt, k2, hk2, hs2⟩
          obtain ⟨e, he, hse⟩ := List.any_eq_true.mp this
          exact List.any_eq_true.mpr ⟨e, List.mem_cons_of_mem kr he, hse⟩

/-- `findByKey` misses a list exactly when no record of it carries a
matching key, provided every record's key hashes. -/
theorem findByKey_none_iff_not_keyMem :
    ∀ (l : List PyVal) (ex : List PyVal) (k : PyVal), existingKeysOf l = .ok ex →
      (findByKey k l = none ↔ (ex.any fun e => PyVal.scalarEq k e) = false) := by
  intro l
  induction l with
  | nil =>
      intro ex k h
      cases Except.ok.inj h
      simp [findByKey]
  | cons r rest ih =>
      intro ex k h
      unfold existingKeysOf at h
      obtain ⟨kr, hkr, h⟩ := exceptBind_ok h
      obtain ⟨ks, hks, h⟩ := exceptBind_ok h
      cases Except.ok.inj h
      rw [findByKey_cons_ok hkr]
      by_cases hs : PyVal.scalarEq k kr = true
      · simp only [hs, if_pos]
        constructor
        · intro hx; exact Option.noConfusion hx
        · intro ha
          rw [List.any_cons, hs] at ha
          simp at ha
      · rw [Bool.not_eq_true] at hs
        rw [hs]
        simp only [Bool.false_eq_true, if_false]
        rw [ih ks k hks]
        rw [List.any_cons, hs]
        simp

/-- `findByKey` distributes over append. -/
theorem findByKey_append (k : PyVal) (l1 l2 : List PyVal) :
    findByKey k (l1 ++ l2) = (findByKey k l1).or (findByKey k l2) := by
  unfold findByKey
  exact List.find?_append

/-- C8: the Source Fetcher's deduplicating merge step is idempotent on
record identity and keeps the first-seen copy: appending a record whose
unique identifier already occurs among the records seen so far leaves
the merged result unchanged (size `N`, not `N + 1`), and looking any
identifier up in the merged result yields exactly the first record with
that identifier in county-then-bbox order. -/
theorem fetcher_dedup_idempotent_first_seen :
    (∀ allRecords bboxRecords out r k,
        mergeDedup allRecords bboxRecords = .ok out → hashableKey r = .ok k →
        keyMem k (allRecords ++ bboxRecords) →
        mergeDedup allRecords (bboxRecords ++ [r]) = .ok out) ∧
    (∀ allRecords bboxRecords out,
        mergeDedup allRecords bboxRecords = .ok out →
        ∀ k, findByKey k out = findByKey k (allRecords ++ bboxRecords)) := by
  constructor
  · intro allR bbox out r k h hk hmem
    unfold mergeDedup at h ⊢
    obtain ⟨ex, hex, h⟩ := exceptBind_ok h
    rw [hex, exceptBind_ok_eq]
    refine dedupLoop_duplicate_append bbox ex allR out r k h hk ?_
    obtain ⟨w, hw, k2, hk2, hs2⟩ := hmem
    rcases List.mem_append.mp hw with hwa | hwb
    · exact Or.inl ((existingKeysOf_any allR ex k hex).mpr ⟨w, hwa, k2, hk2, hs2⟩)
    · exact Or.inr ⟨w, hwb, k2, hk2, hs2⟩
  · intro allR bbox out h k
    unfold mergeDedup at h
    obtain ⟨ex, hex, h⟩ := exceptBind_ok h
    rw [findByKey_append]
    cases hfa : findByKey k allR with
    | some r =>
        exact dedupLoop_find_acc h hfa
    | none =>
        rw [Option.none_or]
        exact dedupLoop_find_eq bbox ex allR out k h
          ((findByKey_none_iff_not_keyMem allR ex k hex).mp hfa) hfa

/-- Witness: the dedup theorem at concrete records — re-feeding
identifier 4242 does not grow the merged set, and identifier lookups in
the merged set match first-seen order. -/
theorem fetcher_dedup_witness :
    mergeDedup [gbifRecA] ([gbifRecB] ++ [gbifRecA2]) = .ok [gbifRecA, gbifRecB] ∧
    findByKey (.int 4242) [gbifRecA, gbifRecB] =
      findByKey (.int 4242) ([gbifRecA] ++ [gbifRecA2, gbifRecB]) :=
  ⟨fetcher_dedup_idempotent_first_seen.1 [gbifRecA] [gbifRecB] [gbifRecA, gbifRecB]
      gbifRecA2 (.int 4242) rfl rfl ⟨gbifRecA, by simp, .int 4242, rfl, by decide⟩,
   fetcher_dedup_idempotent_first_seen.2 [gbifRecA] [gbifRecA2, gbifRecB]
      [gbifRecA, gbifRecB] rfl (.int 4242)⟩

/-- The biodiversity fetch loop, fed full pages and then a failing
page, accumulates exactly the pages before the failure. -/
theorem fetchLoopBio_stops_at_error :
    ∀ (good : List (List PyVal)) (acc : List PyVal) (e : PageResponse)
      (rest : List PageResponse),
      (∀ items ∈ good, items ≠ []) →
      (e = PageResponse.transportError ∨ ∃ c, e = PageResponse.httpError c) →
      fetchLoopBio acc (good.map okPage ++ e :: rest) = acc ++ good.flatten := by
  intro good
  induction good with
  | nil =>
      intro acc e rest hne herr
      rcases herr with rfl | ⟨c, rfl⟩ <;> simp [fetchLoopBio]
  | cons items good ih =>
      intro acc e rest hne herr
      have hlen : (items.length == 0) = false := by
        cases items with
        | nil => exact absurd rfl (hne [] (List.mem_cons_self _ _))
        | cons a as => rfl
      have step : fetchLoopBio acc (okPage items :: (good.map okPage ++ e :: rest)) =
          (if (PyVal.bool false).truthy || (items.length == 0) then acc ++ items
           else fetchLoopBio (acc ++ items) (good.map okPage ++ e :: rest)) := rfl
      simp only [List.map_cons, List.cons_append]
      rw [step]
      simp only [show (PyVal.bool false).truthy = false from rfl, Bool.false_or, hlen,
        Bool.false_eq_true, if_false]
      rw [ih (acc ++ items) e rest (fun x hx => hne x (List.mem_cons_of_mem _ hx)) herr]
      simp

/-- The historical fetch loop, fed full pages and then a failing page,
returns (without raising) exactly the pages before the failure. -/
theorem fetchLoopHist_stops_at_error :
    ∀ (good : List (List PyVal)) (acc : List PyVal) (e : PageResponse)
      (rest : List PageResponse),
      (∀ items ∈ good, items ≠ []) →
      (e = PageResponse.transportError ∨ ∃ c, e = PageResponse.httpError c) →
      fetchLoopHist acc (good.map okPage ++ e :: rest) = .ok (acc ++ good.flatten) := by
  intro good
  induction good with
  | nil =>
      intro acc e rest hne herr
      rcases herr with rfl | ⟨c, rfl⟩ <;> simp [fetchLoopHist]
  | cons items good ih =>
      intro acc e rest hne herr
      have htr : (PyVal.list items).truthy = true := by
        cases items with
        | nil => exact absurd rfl (hne [] (List.mem_cons_self _ _))
        | cons a as => rfl
      have step : fetchLoopHist acc (okPage items :: (good.map okPage ++ e :: rest)) =
          (if !(PyVal.list items).truthy then .ok acc
           else if (PyVal.bool false).truthy then .ok (acc ++ items)
           else fetchLoopHist (acc ++ items) (good.map okPage ++ e :: rest)) := rfl
      simp only [List.map_cons, List.cons_append]
      rw [step]
      simp only [htr, Bool.not_true, Bool.false_eq_true, if_false,
        show (PyVal.bool false).truthy = false from rfl]
      rw [ih (acc ++ items) e rest (fun x hx => hne x (List.mem_cons_of_mem _ hx)) herr]
      simp

/-- C9: in the Source Fetchers' pagination loops, a non-success status
or a transport-level error on any page terminates that loop and the
fetcher returns the records accumulated from the pages already
received — possibly none — rather than raising or discarding them;
this holds for the biodiversity fetcher's loop and for the historical
fetcher's loops (whose return stays `.ok`, i.e. no exception escapes). -/
theorem fetch_loops_return_partial_results_on_error :
    (∀ (good : List (List PyVal)) (e : PageResponse) (rest : List PageResponse),
        (∀ items ∈ good, items ≠ []) →
        (e = PageResponse.transportError ∨ ∃ c, e = PageResponse.httpError c) →
        fetch_gbif_occurrences_bio (good.map okPage ++ e :: rest) = good.flatten) ∧
    (∀ (good : List (List PyVal)) (e : PageResponse) (rest : List PageResponse),
        (∀ items ∈ good, items ≠ []) →
        (e = PageResponse.transportError ∨ ∃ c, e = PageResponse.httpError c) →
        fetchLoopHist [] (good.map okPage ++ e :: rest) = .ok good.flatten) := by
  constructor
  · intro good e rest hne herr
    unfold fetch_gbif_occurrences_bio
    rw [fetchLoopBio_stops_at_error good [] e rest hne herr]
    simp
  · intro good e rest hne herr
    rw [fetchLoopHist_stops_at_error good [] e rest hne herr]
    simp

/-- Witness: both pagination-loop theorems at two concrete full pages
followed by an HTTP 500, returning exactly the two pages' records. -/
theorem fetch_loops_partial_results_witness :
    fetch_gbif_occurrences_bio
        ([[gbifRecA], [gbifRecB]].map okPage ++ PageResponse.httpError 500 :: []) =
      [[gbifRecA], [gbifRecB]].flatten ∧
    fetchLoopHist []
        ([[gbifRecA], [gbifRecB]].map okPage ++ PageResponse.httpError 500 :: []) =
      .ok [[gbifRecA], [gbifRecB]].flatten :=
  ⟨fetch_loops_return_partial_results_on_error.1 [[gbifRecA], [gbifRecB]]
      (PageResponse.httpError 500) [] (by intro x hx; simp at hx; rcases hx with rfl | rfl <;> simp)
      (Or.inr ⟨500, rfl⟩),
   fetch_loops_return_partial_results_on_error.2 [[gbifRecA], [gbifRecB]]
      (PageResponse.httpError 500) [] (by intro x hx; simp at hx; rcases hx with rfl | rfl <;> simp)
      (Or.inr ⟨500, rfl⟩)⟩

/-- What a successful Python `<=` tells us: both operands are numeric
and the result is their comparison. -/
theorem pyLE_ok {a b : PyVal} {r : Bool} (h : pyLE a b = .ok r) :
    ∃ qa qb, a.toQ? = some qa ∧ b.toQ? = some qb ∧ r = decide (qa ≤ qb) := by
  unfold pyLE at h
  cases ha : a.toQ? <;> cases hb : b.toQ? <;> rw [ha, hb] at h
  · exact Except.noConfusion h
  · exact Except.noConfusion h
  · exact Except.noConfusion h
  · rename_i qa qb
    exact ⟨qa, qb, rfl, rfl, (Except.ok.inj h).symm⟩

/-- Every event kept by the harvesting loop carries a numeric year
within the configured range. -/
theorem harvestEvents_year_in_range {tag : String} {wp : Bool} :
    ∀ (evs out : List PyVal), harvestEvents tag wp evs = .ok out →
      ∀ d ∈ out, eventYearInRange d := by
  intro evs
  induction evs with
  | nil =>
      intro out h d hd
      cases Except.ok.inj h
      simp at hd
  | cons ev rest ih =>
      intro out h d hd
      unfold harvestEvents at h
      obtain ⟨y, hy, h⟩ := exceptBind_ok h
      obtain ⟨b1, hb1, h⟩ := exceptBind_ok h
      cases b1 with
      | false => exact ih out h d hd
      | true =>
          obtain ⟨b2, hb2, h⟩ := exceptBind_ok h
          cases b2 with
          | false => exact ih out h d hd
          | true =>
              obtain ⟨evName, hev, h⟩ := exceptBind_ok h
              obtain ⟨desc, hdesc, h⟩ := exceptBind_ok h
              obtain ⟨qa, qy, hqa, hqy, hr1⟩ := pyLE_ok hb1
              obtain ⟨qy', qb, hqy', hqb, hr2⟩ := pyLE_ok hb2
              rw [hqy] at hqy'
              cases Option.some.inj hqy'
              have h1 : ((1933 : Int) : ℚ) ≤ qy := by
                have hd1 := of_decide_eq_true hr1.symm
                have hqa' : qa = ((1933 : Int) : ℚ) := Option.some.inj hqa.symm
                rw [hqa'] at hd1
                exact hd1
              have h2 : qy ≤ ((1957 : Int) : ℚ) := by
                have hd2 := of_decide_eq_true hr2.symm
                have hqb' : qb = ((1957 : Int) : ℚ) := Option.some.inj hqb.symm
                rw [hqb'] at hd2
                exact hd2
              cases wp with
              | false =>
                  obtain ⟨entry, hpure, h⟩ := exceptBind_ok h
                  obtain ⟨tail, htail, h⟩ := exceptBind_ok h
                  cases Except.ok.inj h
                  cases Except.ok.inj hpure
                  rcases List.mem_cons.mp hd with hde | hdt
                  · subst hde
                    exact ⟨qy, hqy, h1, h2⟩
                  · exact ih tail htail d hdt
              | true =>
                  obtain ⟨kp, hkp, h⟩ := exceptBind_ok h
                  obtain ⟨entry, hpure, h⟩ := exceptBind_ok h
                  obtain ⟨tail, htail, h⟩ := exceptBind_ok h
                  cases Except.ok.inj h
                  cases Except.ok.inj hpure
                  rcases List.mem_cons.mp hd with hde | hdt
                  · subst hde
                    exact ⟨qy, hqy, h1, h2⟩
                  · exact ih tail htail d hdt

/-- The events contributed by one artifact are all within range. -/
theorem artifactEvents_year_in_range {tag : String} {wp : Bool} {art : PyVal}
    {out : List PyVal} (h : artifactEvents tag wp art = .ok out) :
    ∀ d ∈ out, eventYearInRange d := by
  unfold artifactEvents at h
  cases ht : art.truthy with
  | false =>
      rw [ht] at h
      simp only [Bool.false_eq_true, if_false] at h
      cases Except.ok.inj h
      intro d hd
      simp at hd
  | true =>
      rw [ht] at h
      simp only [if_true] at h
      obtain ⟨mev, hmev, h⟩ := exceptBind_ok h
      obtain ⟨evs, hevs, h⟩ := exceptBind_ok h
      exact harvestEvents_year_in_range evs out h

/-- Stable insertion adds no new elements. -/
theorem insertByYear_mem {d x : PyVal} :
    ∀ {l : List PyVal}, d ∈ insertByYear x l → d = x ∨ d ∈ l := by
  intro l
  induction l with
  | nil =>
      intro hd
      simp [insertByYear] at hd
      exact Or.inl hd
  | cons y ys ih =>
      intro hd
      unfold insertByYear at hd
      by_cases hc : eventYearQ x ≤ eventYearQ y
      · rw [if_pos hc] at hd
        rcases List.mem_cons.mp hd with rfl | hd2
        · exact Or.inl rfl
        · exact Or.inr hd2
      · rw [if_neg hc] at hd
        rcases List.mem_cons.mp hd with rfl | hd2
        · exact Or.inr (List.mem_cons_self _ _)
        · rcases ih hd2 with hdx | hdy
          · exact Or.inl hdx
          · exact Or.inr (List.mem_cons_of_mem _ hdy)

/-- The year sort permutes: membership is preserved. -/
theorem sortByYear_mem {d : PyVal} :
    ∀ {l : List PyVal}, d ∈ sortByYear l → d ∈ l := by
  intro l
  induction l with
  | nil => intro hd; simp [sortByYear] at hd
  | cons x xs ih =>
      intro hd
      unfold sortByYear at hd
      rcases insertByYear_mem hd with rfl | hd2
      · exact List.mem_cons_self _ _
      · exact List.mem_cons_of_mem _ (ih hd2)

/-- C10: every event in the Merge Stage's merged `major_events`
timeline has a year within `[START_YEAR, END_YEAR]`, whatever the
artifacts; concretely, the chestnut artifact carries events for
1904–1950 (conjunct 2), and the merge of the builders' disk artifacts
keeps exactly the in-range ones, silently dropping 1904–1930
(conjunct 3). -/
theorem merged_major_events_within_range :
    (∀ (now : String) (w bio p c f np cw s i g out : PyVal),
        mergeAllData now w bio p c f np cw s i g = .ok out →
        ∀ e ∈ majorEventsOf out, eventYearInRange e) ∧
    (listOf chestnutMajorEvents).map (fun e => e.fieldD "year") =
      [1904, 1905, 1908, 1911, 1912, 1920, 1923, 1926, 1930, 1933, 1938,
        1940, 1950].map PyVal.int ∧
    (majorEventsOf mergeDiskOut).map (fun e => e.fieldD "year") =
      [1933, 1938, 1939, 1940, 1942, 1943, 1945, 1946, 1948, 1948, 1950, 1950,
        1954, 1957].map PyVal.int := by
  refine ⟨?_, rfl, rfl⟩
  intro now w bio p c f np cw s i g out h
  unfold mergeAllData at h
  obtain ⟨ce, hce, h⟩ := exceptBind_ok h
  obtain ⟨pe, hpe, h⟩ := exceptBind_ok h
  obtain ⟨fe, hfe, h⟩ := exceptBind_ok h
  obtain ⟨yearly, hyearly, h⟩ := exceptBind_ok h
  obtain ⟨x1, he1, h⟩ := exceptBind_ok h
  obtain ⟨x2, he2, h⟩ := exceptBind_ok h
  obtain ⟨x3, he3, h⟩ := exceptBind_ok h
  obtain ⟨x4, he4, h⟩ := exceptBind_ok h
  obtain ⟨x5, he5, h⟩ := exceptBind_ok h
  obtain ⟨x6, he6, h⟩ := exceptBind_ok h
  cases Except.ok.inj h
  intro e he
  have hmem : e ∈ sortByYear (ce ++ pe ++ fe) := he
  have hmem2 := sortByYear_mem hmem
  rcases List.mem_append.mp hmem2 with h12 | h3
  · rcases List.mem_append.mp h12 with hc1 | hp2
    · exact artifactEvents_year_in_range hce e hc1
    · exact artifactEvents_year_in_range hpe e hp2
  · exact artifactEvents_year_in_range hfe e h3

/-- Witness: the range theorem applied to the concrete merge of the
builders' disk artifacts and the first event of its timeline. -/
theorem merged_major_events_witness :
    eventYearInRange (PyVal.dict [
      (.str "year", .int 1933),
      (.str "type", .str "chestnut_blight"),
      (.str "event", .str "BMC opens amid dying forest"),
      (.str "description",
        .str "Black Mountain College opens as chestnut blight transforms surrounding forests")]) :=
  merged_major_events_within_range.1 "" .none .none (jsonRoundTrip pesticideTimeline)
    (jsonRoundTrip chestnutTimeline) .none .none .none .none .none .none mergeDiskOut rfl
    _ (List.mem_cons_self _ _)
